import Mathlib

/-!
# BrokerTune — verification of the tuning-loop core

Shallow embedding, in Lean 4, of the core components of the BrokerTune
repository (an RL-based configuration tuner for a Mosquitto MQTT broker):

* `environment/knobs.py`   — the knob space (`BrokerKnobSpace.decode_action`,
  `encode_knobs`, `get_default_knobs`, `_interp_with_zero`, `_quantize`) and
  the pure configuration-file construction part of `apply_knobs`;
* `environment/utils.py`   — the metrics sampler history logic
  (`MQTTSampler._on_message`, `_compute_rate_from_history`);
* `environment/broker.py`  — the environment step/reset state machine
  (`MosquittoBrokerEnv.step`, `reset`, `_make_failure_transition`,
  `_compute_reward`);
* `environment/config.py`  — the configuration dataclasses (`EnvConfig`,
  `MQTTConfig` fields used by the above).

Numeric model: Python floats are IEEE doubles and the knob code stores
actions in NumPy `float32` arrays.  The float32 cast is semantically
load-bearing for the knob encode/decode round trip (`0.005` cast to
float32 falls strictly below the `zero_eps/2` threshold), so floating
point is modelled exactly: a binary float with `prec` significand bits is
a rational number, and `flRound prec` rounds a rational to the nearest
such number (ties to even), which is exactly IEEE round-to-nearest-even
in the normal range.  Overflow and subnormals never arise for the values
manipulated by this code and are not modelled.  Where a config constant
is a decimal literal in Python (`0.05`, `1e-6`, ...) whose rounding plays
no role in any branch decision, it is modelled by its exact decimal value.
-/

/-! ## Exact binary floating point over ℚ -/

/-- Model of `pow2 z` is the rational number `2^z` (executable form, `z : ℤ`). -/
def pow2 (z : ℤ) : ℚ :=
  if 0 ≤ z then ((2 ^ z.toNat : ℕ) : ℚ) else 1 / ((2 ^ (-z).toNat : ℕ) : ℚ)

lemma pow2_eq_zpow (z : ℤ) : pow2 z = (2 : ℚ) ^ z := by
  unfold pow2
  split
  case isTrue h =>
    push_cast
    rw [← zpow_natCast, Int.toNat_of_nonneg h]
  case isFalse h =>
    push_cast
    rw [one_div, ← zpow_natCast, Int.toNat_of_nonneg (by omega : (0:ℤ) ≤ -z), ← zpow_neg,
      neg_neg]

lemma pow2_pos (z : ℤ) : 0 < pow2 z := by
  rw [pow2_eq_zpow]; positivity

lemma pow2_mono {a b : ℤ} (h : a ≤ b) : pow2 a ≤ pow2 b := by
  rw [pow2_eq_zpow, pow2_eq_zpow]
  exact zpow_le_zpow_right₀ (by norm_num) h

lemma pow2_add (a b : ℤ) : pow2 (a + b) = pow2 a * pow2 b := by
  rw [pow2_eq_zpow, pow2_eq_zpow, pow2_eq_zpow]
  exact zpow_add₀ (by norm_num) a b

/-- Round a rational to the nearest integer, ties to even.  This is the
behaviour of Python's built-in `round` on a float (banker's rounding) and
of IEEE round-to-nearest-even at the integer scale. -/
def rneZ (q : ℚ) : ℤ :=
  if q - (⌊q⌋ : ℚ) < 1/2 then ⌊q⌋
  else if 1/2 < q - (⌊q⌋ : ℚ) then ⌊q⌋ + 1
  else if ⌊q⌋ % 2 = 0 then ⌊q⌋ else ⌊q⌋ + 1

lemma rneZ_cases (q : ℚ) : rneZ q = ⌊q⌋ ∨ rneZ q = ⌊q⌋ + 1 := by
  unfold rneZ
  split
  · left; rfl
  split
  · right; rfl
  split
  · left; rfl
  · right; rfl

lemma rneZ_nonneg {q : ℚ} (h : 0 ≤ q) : 0 ≤ rneZ q := by
  have hf : (0:ℤ) ≤ ⌊q⌋ := Int.floor_nonneg.mpr h
  rcases rneZ_cases q with h' | h' <;> omega

lemma rneZ_le_int {q : ℚ} {m : ℤ} (h : q ≤ (m:ℚ)) : rneZ q ≤ m := by
  have hf : ⌊q⌋ ≤ m := by
    have := Int.floor_le_floor h
    simpa using this
  rcases rneZ_cases q with h' | h'
  · omega
  · -- the `+1` branches all require the fractional part to be ≥ 1/2 > 0
    have hq : (⌊q⌋ : ℚ) < q := by
      by_contra hcon
      push_neg at hcon
      have h0 : q - (⌊q⌋:ℚ) ≤ 0 := by linarith
      have : rneZ q = ⌊q⌋ := by
        unfold rneZ
        rw [if_pos (by linarith)]
      omega
    have : ⌊q⌋ < m := by
      by_contra hcon
      push_neg at hcon
      have : (m:ℚ) ≤ (⌊q⌋:ℚ) := by exact_mod_cast hcon
      linarith
    omega

lemma rneZ_eval_lt (q : ℚ) (f : ℤ) (h1 : (f:ℚ) ≤ q) (h2 : q - (f:ℚ) < 1/2) : rneZ q = f := by
  have hf : ⌊q⌋ = f := by
    rw [Int.floor_eq_iff]
    refine ⟨h1, by linarith⟩
  unfold rneZ
  simp only [hf]
  rw [if_pos h2]

lemma rneZ_eval_gt (q : ℚ) (f : ℤ) (h1 : (f:ℚ) ≤ q) (h2 : 1/2 < q - (f:ℚ))
    (h3 : q < (f:ℚ) + 1) : rneZ q = f + 1 := by
  have hf : ⌊q⌋ = f := by
    rw [Int.floor_eq_iff]
    refine ⟨h1, by linarith⟩
  unfold rneZ
  simp only [hf]
  rw [if_neg (by linarith), if_pos h2]

lemma rneZ_int (m : ℤ) : rneZ (m:ℚ) = m :=
  rneZ_eval_lt _ m le_rfl (by norm_num)

/-- Bounded downward search for the binary exponent: the greatest `e`
(at most the start value) with `pow2 e ≤ q`, scanning one step per unit
of fuel. -/
def floatExpAux : ℕ → ℚ → ℤ → ℤ
  | 0, _, e => e
  | n+1, q, e => if pow2 e ≤ q then e else floatExpAux n q (e - 1)

/-- Binary exponent of a positive rational: the `e` with `2^e ≤ q < 2^(e+1)`,
found by bounded search over the exponent range that actually occurs in
this development (`[-81, 40]`). -/
def floatExp (q : ℚ) : ℤ := floatExpAux 121 q 40

lemma floatExpAux_eq (n : ℕ) (q : ℚ) (e : ℤ) :
    ∀ e₀ : ℤ, pow2 e ≤ q → q < pow2 (e+1) → e ≤ e₀ → e₀ - e < (n:ℤ) →
      floatExpAux n q e₀ = e := by
  induction n with
  | zero => intro e₀ _ _ h1 h2; omega
  | succ n ih =>
    intro e₀ h1 h2 hle hfuel
    unfold floatExpAux
    split
    case isTrue hyes =>
      by_contra hne
      have hlt : e < e₀ := lt_of_le_of_ne hle (fun h => hne (by omega))
      have : pow2 (e+1) ≤ pow2 e₀ := pow2_mono (by omega)
      linarith
    case isFalse hno =>
      have hne : e ≠ e₀ := fun h => hno (h ▸ h1)
      exact ih (e₀ - 1) h1 h2 (by omega) (by push_cast at hfuel ⊢; omega)

lemma floatExp_eq {q : ℚ} {e : ℤ} (h1 : pow2 e ≤ q) (h2 : q < pow2 (e+1))
    (hlo : -80 ≤ e) (hhi : e ≤ 40) : floatExp q = e :=
  floatExpAux_eq 121 q e 40 h1 h2 hhi (by omega)

lemma floatExpAux_bounds (n : ℕ) (q : ℚ) :
    ∀ e₀ : ℤ, floatExpAux n q e₀ = e₀ - (n:ℤ) ∨
      (pow2 (floatExpAux n q e₀) ≤ q ∧ floatExpAux n q e₀ ≤ e₀) := by
  induction n with
  | zero => intro e₀; left; simp [floatExpAux]
  | succ n ih =>
    intro e₀
    unfold floatExpAux
    split
    case isTrue hyes => right; exact ⟨hyes, le_rfl⟩
    case isFalse hno =>
      rcases ih (e₀ - 1) with h | ⟨h1, h2⟩
      · left; push_cast; omega
      · right; exact ⟨h1, by omega⟩

/-- If `0 < q ≤ 1` then the found exponent is nonpositive. -/
lemma floatExp_nonpos {q : ℚ} (h1 : q ≤ 1) : floatExp q ≤ 0 := by
  unfold floatExp
  rcases floatExpAux_bounds 121 q 40 with h | ⟨hp, _⟩
  · omega
  · by_contra hcon
    push_neg at hcon
    have : pow2 1 ≤ pow2 (floatExpAux 121 q 40) := pow2_mono (by omega)
    have h2 : pow2 1 = 2 := by norm_num [pow2]
    linarith

lemma floatExp_le_40 (q : ℚ) : floatExp q ≤ 40 := by
  unfold floatExp
  rcases floatExpAux_bounds 121 q 40 with h | ⟨_, h2⟩ <;> omega

/-- Round a positive rational to `prec` significand bits
(round-to-nearest, ties to even). -/
def flRoundPos (prec : ℕ) (q : ℚ) : ℚ :=
  (rneZ (q / pow2 (floatExp q - ((prec : ℤ) - 1))) : ℚ) * pow2 (floatExp q - ((prec : ℤ) - 1))

/-- Round a rational to the nearest binary float with a `prec`-bit
significand (IEEE round-to-nearest-even in the normal range). -/
def flRound (prec : ℕ) (q : ℚ) : ℚ :=
  if 0 < q then flRoundPos prec q
  else if q < 0 then -(flRoundPos prec (-q))
  else 0

/-- IEEE double (Python float) rounding: 53 significand bits. -/
def fl64 (q : ℚ) : ℚ := flRound 53 q

/-- IEEE single (NumPy float32) rounding: 24 significand bits. -/
def fl32 (q : ℚ) : ℚ := flRound 24 q

lemma flRound_eval (prec : ℕ) (q : ℚ) (e m : ℤ)
    (h1 : pow2 e ≤ q) (h2 : q < pow2 (e+1)) (hlo : -80 ≤ e) (hhi : e ≤ 40)
    (hm : rneZ (q / pow2 (e - ((prec : ℤ) - 1))) = m) :
    flRound prec q = (m : ℚ) * pow2 (e - ((prec : ℤ) - 1)) := by
  have hq : 0 < q := lt_of_lt_of_le (pow2_pos e) h1
  unfold flRound flRoundPos
  rw [if_pos hq, floatExp_eq h1 h2 hlo hhi, hm]

lemma flRound_nonneg {prec : ℕ} {q : ℚ} (h : 0 ≤ q) : 0 ≤ flRound prec q := by
  unfold flRound
  split
  case isTrue hq =>
    unfold flRoundPos
    have h1 : (0:ℚ) ≤ (rneZ (q / pow2 (floatExp q - ((prec : ℤ) - 1))) : ℚ) := by
      have := rneZ_nonneg (q := q / pow2 (floatExp q - ((prec : ℤ) - 1)))
        (div_nonneg h (le_of_lt (pow2_pos _)))
      exact_mod_cast this
    exact mul_nonneg h1 (le_of_lt (pow2_pos _))
  split
  case isTrue hq => linarith
  case isFalse _ _ => exact le_refl 0

lemma flRound_le_int {prec : ℕ} {q : ℚ} {B : ℤ}
    (hs : floatExp q ≤ (prec : ℤ) - 1) (hq : 0 ≤ q) (hB : q ≤ (B:ℚ)) :
    flRound prec q ≤ (B:ℚ) := by
  unfold flRound
  split
  case isTrue hq0 =>
    unfold flRoundPos
    set s : ℤ := floatExp q - ((prec : ℤ) - 1) with hsdef
    have hsle : s ≤ 0 := by omega
    -- `B` is an integer multiple of `pow2 s` since `s ≤ 0`
    have key : (2:ℚ) ^ ((-s).toNat) * pow2 s = 1 := by
      rw [← zpow_natCast, Int.toNat_of_nonneg (by omega : (0:ℤ) ≤ -s), ← pow2_eq_zpow,
        ← pow2_add]
      simp [pow2]
    have hBmul : (B:ℚ) = ((B * 2 ^ (-s).toNat : ℤ) : ℚ) * pow2 s := by
      push_cast
      rw [mul_assoc, key, mul_one]
    have hdiv : q / pow2 s ≤ ((B * 2 ^ (-s).toNat : ℤ) : ℚ) := by
      rw [div_le_iff₀ (pow2_pos s), ← hBmul]
      exact hB
    have hr := rneZ_le_int hdiv
    have hr' : ((rneZ (q / pow2 s)) : ℚ) ≤ ((B * 2 ^ (-s).toNat : ℤ) : ℚ) := by
      exact_mod_cast hr
    calc ((rneZ (q / pow2 s)) : ℚ) * pow2 s
        ≤ ((B * 2 ^ (-s).toNat : ℤ) : ℚ) * pow2 s := by
          exact mul_le_mul_of_nonneg_right hr' (le_of_lt (pow2_pos s))
      _ = (B:ℚ) := by rw [← hBmul]
  split
  case isTrue hq0 => linarith
  case isFalse h1 h2 =>
    have : q = 0 := by linarith
    rw [← this]; exact hB

/-- Model of `fl64` never rounds a nonnegative value above an integer bound. -/
lemma fl64_le_int {q : ℚ} {B : ℤ} (hq : 0 ≤ q) (hB : q ≤ (B:ℚ)) : fl64 q ≤ (B:ℚ) :=
  flRound_le_int (by have := floatExp_le_40 q; omega) hq hB

lemma fl64_nonneg {q : ℚ} (h : 0 ≤ q) : 0 ≤ fl64 q := flRound_nonneg h

/-- Model of `fl32` keeps values of `[0, 1]` inside `[0, 1]`. -/
lemma fl32_le_one {q : ℚ} (hq : 0 ≤ q) (h1 : q ≤ 1) : fl32 q ≤ 1 := by
  have h := @flRound_le_int 24 q 1
    (by have := floatExp_nonpos h1; omega) hq (by exact_mod_cast h1)
  simpa using h

lemma fl32_nonneg {q : ℚ} (h : 0 ≤ q) : 0 ≤ fl32 q := flRound_nonneg h

/-! ## Knob space (`environment/knobs.py`, class `BrokerKnobSpace`) -/

/-- The typed result of decoding an action
(`environment/knobs.py`, dict returned by `decode_action`). -/
structure KnobDict where
  max_inflight_messages : ℤ
  max_inflight_bytes : ℤ
  max_queued_messages : ℤ
  max_queued_bytes : ℤ
  queue_qos0_messages : Bool
  memory_limit : ℤ
  persistence : Bool
  autosave_interval : ℤ
  set_tcp_nodelay : Bool
  max_packet_size : ℤ
  message_size_limit : ℤ
deriving DecidableEq, Repr

namespace BrokerKnobSpace

/- Ranges `[lo, hi]`, quantization steps and defaults: the dataclass field
values of `BrokerKnobSpace` (knobs.py lines 41-78). -/

def max_inflight_messages_range : ℤ × ℤ := (0, 2000)
def max_inflight_bytes_range : ℤ × ℤ := (0, 64 * 1024 * 1024)
def max_queued_messages_range : ℤ × ℤ := (0, 20000)
def max_queued_bytes_range : ℤ × ℤ := (0, 128 * 1024 * 1024)
def memory_limit_range : ℤ × ℤ := (0, 4 * 1024 * 1024 * 1024)
def autosave_interval_range : ℤ × ℤ := (0, 3600)
def max_packet_size_range : ℤ × ℤ := (0, 10 * 1024 * 1024)
def message_size_limit_range : ℤ × ℤ := (0, 10 * 1024 * 1024)

def max_inflight_messages_step : ℤ := 10
def max_inflight_bytes_step : ℤ := 256 * 1024
def max_queued_messages_step : ℤ := 100
def max_queued_bytes_step : ℤ := 1024 * 1024
def memory_limit_step : ℤ := 64 * 1024 * 1024
def autosave_interval_step : ℤ := 60
def max_packet_size_step : ℤ := 1024
def message_size_limit_step : ℤ := 1024

def action_dim : ℕ := 11

/-- The value denoted by the Python literal `0.01` (the `zero_eps`
default parameter) — an IEEE double. -/
def zero_eps : ℚ := fl64 (1/100)

/-- Model of `_interp_with_zero(v, low, high)` (knobs.py lines 122-137): for
zero-means-unlimited knobs, a coordinate strictly below `zero_eps/2`
decodes to the sentinel 0, otherwise `int(round(low + v * (high - low)))`.
The multiplication and addition are Python double arithmetic, hence the
`fl64` at each operation; `round` is banker's rounding (`rneZ`). -/
def interp_with_zero (v : ℚ) (low high : ℤ) : ℤ :=
  if v < zero_eps / 2 then 0
  else rneZ (fl64 ((low : ℚ) + fl64 (v * ((high - low : ℤ) : ℚ))))

/-- Model of `_quantize(value, step, low, high)` (knobs.py lines 142-150):
`round(value / step) * step` with a floor of `step` (when `low = 0`) for
nonzero raw values, clamped into `[low, high]`.  `value / step` is Python
float true division, hence the `fl64`. -/
def quantize (value step low high : ℤ) : ℤ :=
  if value = 0 then 0
  else if step ≤ 1 then min (max value low) high
  else
    let quantized := rneZ (fl64 ((value : ℚ) / (step : ℚ))) * step
    let quantized2 := if quantized = 0 then step else quantized
    min (max quantized2 (if 0 < low then low else step)) high

/-- One step of `np.clip(action, 0.0, 1.0).astype(np.float32)` applied to
a coordinate (knobs.py line 115): clamp to `[0,1]` (exact) then cast to
float32.  The subsequent NaN/Inf replacement (line 118-120) is
unreachable in the rational model because ℚ has no NaN/Inf. -/
def clip01f32 (x : ℚ) : ℚ := fl32 (min (max x 0) 1)

/-- Decode one numeric knob: `_interp_with_zero` followed by `_quantize`
with the knob's range and step, exactly as `decode_action` does for each
of the eight numeric knobs. -/
def decodeNum (v : ℚ) (range : ℤ × ℤ) (step : ℤ) : ℤ :=
  quantize (interp_with_zero v range.1 range.2) step range.1 range.2

/-- Model of `BrokerKnobSpace.decode_action` (knobs.py lines 98-246).  The Python
code raises `ValueError` when `action.shape[0] != self.action_dim`; this
is the `Except.error` branch.  Coordinates are clamped to `[0,1]` and
cast to float32 before decoding. -/
def decode_action (action : List ℚ) : Except String KnobDict :=
  match action with
  | [a0, a1, a2, a3, a4, a5, a6, a7, a8, a9, a10] =>
    let c0 := clip01f32 a0
    let c1 := clip01f32 a1
    let c2 := clip01f32 a2
    let c3 := clip01f32 a3
    let c4 := clip01f32 a4
    let c5 := clip01f32 a5
    let c6 := clip01f32 a6
    let c7 := clip01f32 a7
    let c8 := clip01f32 a8
    let c9 := clip01f32 a9
    let c10 := clip01f32 a10
    let max_packet_size_raw := decodeNum c9 max_packet_size_range max_packet_size_step
    Except.ok
      { max_inflight_messages :=
          decodeNum c0 max_inflight_messages_range max_inflight_messages_step
        max_inflight_bytes :=
          decodeNum c1 max_inflight_bytes_range max_inflight_bytes_step
        max_queued_messages :=
          decodeNum c2 max_queued_messages_range max_queued_messages_step
        max_queued_bytes :=
          decodeNum c3 max_queued_bytes_range max_queued_bytes_step
        queue_qos0_messages := decide ((1:ℚ)/2 ≤ c4)
        memory_limit := decodeNum c5 memory_limit_range memory_limit_step
        persistence := decide ((1:ℚ)/2 ≤ c6)
        autosave_interval := decodeNum c7 autosave_interval_range autosave_interval_step
        set_tcp_nodelay := decide ((1:ℚ)/2 ≤ c8)
        max_packet_size :=
          if 0 < max_packet_size_raw ∧ max_packet_size_raw < 20 then 20
          else max_packet_size_raw
        message_size_limit :=
          decodeNum c10 message_size_limit_range message_size_limit_step }
  | _ => Except.error "action dimension mismatch: expected 11"

/-- Model of `BrokerKnobSpace.get_default_knobs` (knobs.py lines 248-276):
Mosquitto's default configuration values. -/
def get_default_knobs : KnobDict :=
  { max_inflight_messages := 20
    max_inflight_bytes := 0
    max_queued_messages := 1000
    max_queued_bytes := 0
    queue_qos0_messages := false
    memory_limit := 0
    persistence := false
    autosave_interval := 1800
    set_tcp_nodelay := false
    max_packet_size := 0
    message_size_limit := 0 }

/-- Model of `_encode_with_zero(value, low, high)` (knobs.py lines 290-304):
sentinel 0 encodes to `zero_eps/2`; otherwise `(value-low)/(high-low)`
computed in double arithmetic. -/
def encode_with_zero (value : ℤ) (range : ℤ × ℤ) : ℚ :=
  if value = 0 then zero_eps / 2
  else if range.2 = range.1 then 1/2
  else fl64 (((value - range.1 : ℤ) : ℚ) / ((range.2 - range.1 : ℤ) : ℚ))

/-- Model of `BrokerKnobSpace.encode_knobs` (knobs.py lines 278-360): components
are stored into a float32 array (hence `fl32`) and finally clamped to
`[0,1]` by `np.clip` (exact). -/
def encode_knobs (knobs : KnobDict) : List ℚ :=
  ([ fl32 (encode_with_zero knobs.max_inflight_messages max_inflight_messages_range),
     fl32 (encode_with_zero knobs.max_inflight_bytes max_inflight_bytes_range),
     fl32 (encode_with_zero knobs.max_queued_messages max_queued_messages_range),
     fl32 (encode_with_zero knobs.max_queued_bytes max_queued_bytes_range),
     fl32 (if knobs.queue_qos0_messages then 1 else 0),
     fl32 (encode_with_zero knobs.memory_limit memory_limit_range),
     fl32 (if knobs.persistence then 1 else 0),
     fl32 (encode_with_zero knobs.autosave_interval autosave_interval_range),
     fl32 (if knobs.set_tcp_nodelay then 1 else 0),
     fl32 (encode_with_zero knobs.max_packet_size max_packet_size_range),
     fl32 (encode_with_zero knobs.message_size_limit message_size_limit_range)
   ]).map (fun x => min (max x 0) 1)

end BrokerKnobSpace

/-! ### C4: decoded knobs are in range and quantized -/

namespace BrokerKnobSpace

/-- The per-knob property claimed in §8 of the spec: the value lies in the
declared inclusive range and is 0 or a multiple of the declared step. -/
def inRangeMult (x lo hi step : ℤ) : Prop := lo ≤ x ∧ x ≤ hi ∧ (x = 0 ∨ step ∣ x)

lemma clip01f32_mem (x : ℚ) : 0 ≤ clip01f32 x ∧ clip01f32 x ≤ 1 := by
  unfold clip01f32
  have h0 : (0:ℚ) ≤ min (max x 0) 1 := le_min (le_max_right x 0) (by norm_num)
  have h1 : min (max x 0) 1 ≤ 1 := min_le_right _ _
  exact ⟨fl32_nonneg h0, fl32_le_one h0 h1⟩

lemma interp_with_zero_bounds {v : ℚ} (h0 : 0 ≤ v) (h1 : v ≤ 1) {hi : ℤ} (hhi : 0 ≤ hi) :
    0 ≤ interp_with_zero v 0 hi ∧ interp_with_zero v 0 hi ≤ hi := by
  have hhiQ : (0:ℚ) ≤ (hi:ℚ) := by exact_mod_cast hhi
  unfold interp_with_zero
  split
  · exact ⟨le_refl 0, hhi⟩
  · simp only [sub_zero, Int.cast_zero, zero_add]
    have hmul0 : 0 ≤ v * (hi : ℚ) := mul_nonneg h0 hhiQ
    have hmul1 : v * (hi : ℚ) ≤ (hi : ℚ) := by
      calc v * (hi:ℚ) ≤ 1 * (hi:ℚ) := mul_le_mul_of_nonneg_right h1 hhiQ
        _ = (hi:ℚ) := one_mul _
    have hin0 : 0 ≤ fl64 (v * (hi : ℚ)) := fl64_nonneg hmul0
    have hin1 : fl64 (v * (hi : ℚ)) ≤ (hi:ℚ) := fl64_le_int hmul0 hmul1
    have hout0 : 0 ≤ fl64 (fl64 (v * (hi : ℚ))) := fl64_nonneg hin0
    have hout1 : fl64 (fl64 (v * (hi : ℚ))) ≤ (hi:ℚ) := fl64_le_int hin0 hin1
    exact ⟨rneZ_nonneg hout0, rneZ_le_int hout1⟩

lemma quantize_spec {value step hi : ℤ} (hstep : 0 < step) (hdvd : step ∣ hi)
    (hhi : 0 < hi) (h0 : 0 ≤ value) (hv : value ≤ hi) :
    inRangeMult (quantize value step 0 hi) 0 hi step := by
  obtain ⟨M, hM⟩ := hdvd
  have hMpos : 0 < M := by
    by_contra hcon
    push_neg at hcon
    have h2 : step * M ≤ step * 0 := mul_le_mul_of_nonneg_left hcon (le_of_lt hstep)
    rw [mul_zero] at h2
    have h3 : 0 < step * M := hM ▸ hhi
    linarith
  have hstep_le_hi : step ≤ hi := by
    calc step = step * 1 := (mul_one step).symm
      _ ≤ step * M := mul_le_mul_of_nonneg_left (by omega) (le_of_lt hstep)
      _ = hi := hM.symm
  unfold quantize
  split
  case isTrue h => exact ⟨le_refl 0, by omega, Or.inl rfl⟩
  case isFalse hvne =>
    split
    case isTrue h1 =>
      have : step = 1 := by omega
      subst this
      refine ⟨by omega, by omega, Or.inr (one_dvd _)⟩
    case isFalse h1 =>
      -- step ≥ 2 path
      have hq0 : (0:ℚ) ≤ (value:ℚ) / (step:ℚ) := by
        apply div_nonneg
        · exact_mod_cast h0
        · exact_mod_cast le_of_lt hstep
      have hqM : (value:ℚ) / (step:ℚ) ≤ (M:ℚ) := by
        rw [div_le_iff₀ (by exact_mod_cast hstep : (0:ℚ) < (step:ℚ))]
        have : value ≤ M * step := by rw [hM] at hv; linarith [hv]
        exact_mod_cast this
      have hfl0 : 0 ≤ fl64 ((value:ℚ) / (step:ℚ)) := fl64_nonneg hq0
      have hflM : fl64 ((value:ℚ) / (step:ℚ)) ≤ (M:ℚ) := fl64_le_int hq0 hqM
      have hm0 : 0 ≤ rneZ (fl64 ((value:ℚ) / (step:ℚ))) := rneZ_nonneg hfl0
      have hmM : rneZ (fl64 ((value:ℚ) / (step:ℚ))) ≤ M := rneZ_le_int hflM
      set m := rneZ (fl64 ((value:ℚ) / (step:ℚ))) with hmdef
      set q1 : ℤ := m * step with hq1def
      have hq1hi : q1 ≤ hi := by
        rw [hq1def, hM]
        calc m * step ≤ M * step := mul_le_mul_of_nonneg_right hmM (le_of_lt hstep)
          _ = step * M := mul_comm M step
      have hq1dvd : step ∣ q1 := dvd_mul_left step m
      set q2 : ℤ := if q1 = 0 then step else q1 with hq2def
      have hq2dvd : step ∣ q2 := by
        rw [hq2def]; split
        · exact dvd_refl step
        · exact hq1dvd
      have hq2hi : q2 ≤ hi := by
        rw [hq2def]; split
        · exact hstep_le_hi
        · exact hq1hi
      have hmaxdvd : step ∣ max q2 (if (0:ℤ) < 0 then 0 else step) := by
        rcases max_choice q2 (if (0:ℤ) < 0 then 0 else step) with h | h <;> rw [h]
        · exact hq2dvd
        · split
          · omega
          · exact dvd_refl step
      refine ⟨?_, ?_, Or.inr ?_⟩
      · -- nonnegativity of the final min
        apply le_min
        · have hstep_le : step ≤ max q2 (if (0:ℤ) < 0 then 0 else step) := by
            refine le_trans ?_ (le_max_right _ _)
            norm_num
          omega
        · omega
      · exact min_le_right _ _
      · rcases min_choice (max q2 (if (0:ℤ) < 0 then 0 else step)) hi with h | h <;> rw [h]
        · exact hmaxdvd
        · rw [hM]; exact dvd_mul_right step M

lemma decodeNum_inRangeMult (v : ℚ) {hi step : ℤ}
    (hstep : 0 < step) (hdvd : step ∣ hi) (hhi : 0 < hi) :
    inRangeMult (decodeNum (clip01f32 v) (0, hi) step) 0 hi step := by
  obtain ⟨hc0, hc1⟩ := clip01f32_mem v
  obtain ⟨hi0, hi1⟩ := interp_with_zero_bounds hc0 hc1 (le_of_lt hhi)
  exact quantize_spec hstep hdvd hhi hi0 hi1

end BrokerKnobSpace

/-- Claim C4: For every action in `[0,1]^11`, `decode_action` succeeds and
every integer-valued knob lies inside its declared inclusive range and is
either 0 or a multiple of its declared quantization step
(knobs.py `decode_action`, `_interp_with_zero`, `_quantize`). -/
theorem decode_action_in_range_and_quantized (action : List ℚ)
    (hlen : action.length = BrokerKnobSpace.action_dim)
    (hmem : ∀ x ∈ action, 0 ≤ x ∧ x ≤ 1) :
    ∃ kd, BrokerKnobSpace.decode_action action = Except.ok kd ∧
      BrokerKnobSpace.inRangeMult kd.max_inflight_messages 0 2000 10 ∧
      BrokerKnobSpace.inRangeMult kd.max_inflight_bytes 0 (64*1024*1024) (256*1024) ∧
      BrokerKnobSpace.inRangeMult kd.max_queued_messages 0 20000 100 ∧
      BrokerKnobSpace.inRangeMult kd.max_queued_bytes 0 (128*1024*1024) (1024*1024) ∧
      BrokerKnobSpace.inRangeMult kd.memory_limit 0 (4*1024*1024*1024) (64*1024*1024) ∧
      BrokerKnobSpace.inRangeMult kd.autosave_interval 0 3600 60 ∧
      BrokerKnobSpace.inRangeMult kd.max_packet_size 0 (10*1024*1024) 1024 ∧
      BrokerKnobSpace.inRangeMult kd.message_size_limit 0 (10*1024*1024) 1024 := by
  unfold BrokerKnobSpace.action_dim at hlen
  rcases action with _ | ⟨a0, _ | ⟨a1, _ | ⟨a2, _ | ⟨a3, _ | ⟨a4, _ | ⟨a5, _ | ⟨a6, _ | ⟨a7,
    _ | ⟨a8, _ | ⟨a9, _ | ⟨a10, _ | ⟨a11, tl⟩⟩⟩⟩⟩⟩⟩⟩⟩⟩⟩⟩ <;>
    simp only [List.length_cons, List.length_nil] at hlen <;> try omega
  refine ⟨_, rfl, ?_, ?_, ?_, ?_, ?_, ?_, ?_, ?_⟩ <;>
    simp only [BrokerKnobSpace.decode_action, BrokerKnobSpace.max_inflight_messages_range,
      BrokerKnobSpace.max_inflight_bytes_range, BrokerKnobSpace.max_queued_messages_range,
      BrokerKnobSpace.max_queued_bytes_range, BrokerKnobSpace.memory_limit_range,
      BrokerKnobSpace.autosave_interval_range, BrokerKnobSpace.max_packet_size_range,
      BrokerKnobSpace.message_size_limit_range, BrokerKnobSpace.max_inflight_messages_step,
      BrokerKnobSpace.max_inflight_bytes_step, BrokerKnobSpace.max_queued_messages_step,
      BrokerKnobSpace.max_queued_bytes_step, BrokerKnobSpace.memory_limit_step,
      BrokerKnobSpace.autosave_interval_step, BrokerKnobSpace.max_packet_size_step,
      BrokerKnobSpace.message_size_limit_step]
  · exact BrokerKnobSpace.decodeNum_inRangeMult a0 (by norm_num) (by norm_num) (by norm_num)
  · exact BrokerKnobSpace.decodeNum_inRangeMult a1 (by norm_num) (by norm_num) (by norm_num)
  · exact BrokerKnobSpace.decodeNum_inRangeMult a2 (by norm_num) (by norm_num) (by norm_num)
  · exact BrokerKnobSpace.decodeNum_inRangeMult a3 (by norm_num) (by norm_num) (by norm_num)
  · exact BrokerKnobSpace.decodeNum_inRangeMult a5 (by norm_num) (by norm_num) (by norm_num)
  · exact BrokerKnobSpace.decodeNum_inRangeMult a7 (by norm_num) (by norm_num) (by norm_num)
  · -- max_packet_size: the <20 promotion is dead because the step is 1024
    have hraw := @BrokerKnobSpace.decodeNum_inRangeMult a9
      (10*1024*1024) 1024 (by norm_num) (by norm_num) (by norm_num)
    obtain ⟨hr0, hr1, hr2⟩ := hraw
    split
    case isTrue h =>
      obtain ⟨hpos, hlt⟩ := h
      rcases hr2 with h0 | hdvd
      · omega
      · exfalso
        have : 1024 ≤ BrokerKnobSpace.decodeNum (BrokerKnobSpace.clip01f32 a9)
            (0, 10*1024*1024) 1024 := Int.le_of_dvd hpos hdvd
        omega
    case isFalse h => exact ⟨hr0, hr1, hr2⟩
  · exact BrokerKnobSpace.decodeNum_inRangeMult a10 (by norm_num) (by norm_num) (by norm_num)

/-- Closed witness for `decode_action_in_range_and_quantized` at the
constant action `0.3`.  -/
theorem decode_action_in_range_and_quantized_witness :
    (List.replicate 11 ((3:ℚ)/10)).length = BrokerKnobSpace.action_dim ∧
    (∀ x ∈ List.replicate 11 ((3:ℚ)/10), 0 ≤ x ∧ x ≤ 1) ∧
    ∃ kd, BrokerKnobSpace.decode_action (List.replicate 11 ((3:ℚ)/10)) = Except.ok kd ∧
      BrokerKnobSpace.inRangeMult kd.max_inflight_messages 0 2000 10 ∧
      BrokerKnobSpace.inRangeMult kd.max_inflight_bytes 0 (64*1024*1024) (256*1024) ∧
      BrokerKnobSpace.inRangeMult kd.max_queued_messages 0 20000 100 ∧
      BrokerKnobSpace.inRangeMult kd.max_queued_bytes 0 (128*1024*1024) (1024*1024) ∧
      BrokerKnobSpace.inRangeMult kd.memory_limit 0 (4*1024*1024*1024) (64*1024*1024) ∧
      BrokerKnobSpace.inRangeMult kd.autosave_interval 0 3600 60 ∧
      BrokerKnobSpace.inRangeMult kd.max_packet_size 0 (10*1024*1024) 1024 ∧
      BrokerKnobSpace.inRangeMult kd.message_size_limit 0 (10*1024*1024) 1024 := by
  refine ⟨by simp [BrokerKnobSpace.action_dim], ?_, ?_⟩
  · intro x hx
    rw [List.eq_of_mem_replicate hx]
    norm_num
  · exact decode_action_in_range_and_quantized _ (by simp [BrokerKnobSpace.action_dim])
      (by intro x hx; rw [List.eq_of_mem_replicate hx]; norm_num)

/-! ### C3: concrete float evaluations for the encode/decode round trip -/

lemma flRound_eval' (prec : ℕ) (q r : ℚ) (e s m : ℤ)
    (hs : e - ((prec : ℤ) - 1) = s)
    (h1 : pow2 e ≤ q) (h2 : q < pow2 (e+1)) (hlo : -80 ≤ e) (hhi : e ≤ 40)
    (hm : rneZ (q / pow2 s) = m)
    (hr : (m:ℚ) * pow2 s = r) : flRound prec q = r := by
  rw [flRound_eval prec q e m h1 h2 hlo hhi (by rw [hs]; exact hm), hs, hr]

lemma flRound_zero (prec : ℕ) : flRound prec 0 = 0 := by
  unfold flRound
  norm_num

/-- The double closest to 1/100 (the Python literal `0.01`). -/
lemma fl64_eval_inv100 : fl64 (1/100) = 5764607523034235 / 576460752303423488 := by
  refine flRound_eval' 53 _ _ (-7) (-59) 5764607523034235 (by omega) ?_ ?_ (by norm_num) (by norm_num) ?_ ?_
  · rw [pow2_eq_zpow]; norm_num
  · rw [pow2_eq_zpow]; norm_num
  · have h : (1/100 : ℚ) / pow2 (-59) = 576460752303423488/100 := by
      rw [pow2_eq_zpow]; norm_num
    rw [h]
    exact rneZ_eval_gt _ 5764607523034234 (by norm_num) (by norm_num) (by norm_num)
  · rw [pow2_eq_zpow]; norm_num

/-- float32 of the double `0.01`. -/
lemma fl32_eval_d001 :
    fl32 (5764607523034235 / 576460752303423488) = 5368709 / 536870912 := by
  refine flRound_eval' 24 _ _ (-7) (-30) 10737418 (by omega) ?_ ?_ (by norm_num) (by norm_num) ?_ ?_
  · rw [pow2_eq_zpow]; norm_num
  · rw [pow2_eq_zpow]; norm_num
  · have h : (5764607523034235 / 576460752303423488 : ℚ) / pow2 (-30) =
        5764607523034235/536870912 := by
      rw [pow2_eq_zpow]; norm_num
    rw [h]
    exact rneZ_eval_lt _ 10737418 (by norm_num) (by norm_num)
  · rw [pow2_eq_zpow]; norm_num

/-- float32 of the double `0.005` (= the `zero_eps/2` threshold itself):
it falls strictly below the threshold. -/
lemma fl32_eval_d0005 :
    fl32 (5764607523034235 / 1152921504606846976) = 5368709 / 1073741824 := by
  refine flRound_eval' 24 _ _ (-8) (-31) 10737418 (by omega) ?_ ?_ (by norm_num) (by norm_num) ?_ ?_
  · rw [pow2_eq_zpow]; norm_num
  · rw [pow2_eq_zpow]; norm_num
  · have h : (5764607523034235 / 1152921504606846976 : ℚ) / pow2 (-31) =
        5764607523034235/536870912 := by
      rw [pow2_eq_zpow]; norm_num
    rw [h]
    exact rneZ_eval_lt _ 10737418 (by norm_num) (by norm_num)
  · rw [pow2_eq_zpow]; norm_num

/-- The double closest to 1/20 (encoding of the default `max_queued_messages`). -/
lemma fl64_eval_inv20 : fl64 (1/20) = 3602879701896397 / 72057594037927936 := by
  refine flRound_eval' 53 _ _ (-5) (-57) 7205759403792794 (by omega) ?_ ?_ (by norm_num) (by norm_num) ?_ ?_
  · rw [pow2_eq_zpow]; norm_num
  · rw [pow2_eq_zpow]; norm_num
  · have h : (1/20 : ℚ) / pow2 (-57) = 144115188075855872/20 := by
      rw [pow2_eq_zpow]; norm_num
    rw [h]
    exact rneZ_eval_gt _ 7205759403792793 (by norm_num) (by norm_num) (by norm_num)
  · rw [pow2_eq_zpow]; norm_num

/-- float32 of the double `0.05`. -/
lemma fl32_eval_d005 :
    fl32 (3602879701896397 / 72057594037927936) = 13421773 / 268435456 := by
  refine flRound_eval' 24 _ _ (-5) (-28) 13421773 (by omega) ?_ ?_ (by norm_num) (by norm_num) ?_ ?_
  · rw [pow2_eq_zpow]; norm_num
  · rw [pow2_eq_zpow]; norm_num
  · have h : (3602879701896397 / 72057594037927936 : ℚ) / pow2 (-28) =
        3602879701896397/268435456 := by
      rw [pow2_eq_zpow]; norm_num
    rw [h]
    exact rneZ_eval_gt _ 13421772 (by norm_num) (by norm_num) (by norm_num)
  · rw [pow2_eq_zpow]; norm_num

lemma fl64_eval_half : fl64 (1/2) = 1/2 := by
  refine flRound_eval' 53 _ _ (-1) (-53) 4503599627370496 (by omega) ?_ ?_ (by norm_num) (by norm_num) ?_ ?_
  · rw [pow2_eq_zpow]; norm_num
  · rw [pow2_eq_zpow]; norm_num
  · have h : (1/2 : ℚ) / pow2 (-53) = 4503599627370496 := by
      rw [pow2_eq_zpow]; norm_num
    rw [h]
    exact_mod_cast rneZ_int 4503599627370496
  · rw [pow2_eq_zpow]; norm_num

lemma fl32_eval_half : fl32 (1/2) = 1/2 := by
  refine flRound_eval' 24 _ _ (-1) (-24) 8388608 (by omega) ?_ ?_ (by norm_num) (by norm_num) ?_ ?_
  · rw [pow2_eq_zpow]; norm_num
  · rw [pow2_eq_zpow]; norm_num
  · have h : (1/2 : ℚ) / pow2 (-24) = 8388608 := by
      rw [pow2_eq_zpow]; norm_num
    rw [h]
    exact_mod_cast rneZ_int 8388608
  · rw [pow2_eq_zpow]; norm_num

lemma fl32_eval_f001 : fl32 (5368709 / 536870912) = 5368709 / 536870912 := by
  refine flRound_eval' 24 _ _ (-7) (-30) 10737418 (by omega) ?_ ?_ (by norm_num) (by norm_num) ?_ ?_
  · rw [pow2_eq_zpow]; norm_num
  · rw [pow2_eq_zpow]; norm_num
  · have h : (5368709 / 536870912 : ℚ) / pow2 (-30) = 10737418 := by
      rw [pow2_eq_zpow]; norm_num
    rw [h]
    exact_mod_cast rneZ_int 10737418
  · rw [pow2_eq_zpow]; norm_num

lemma fl32_eval_f0005 : fl32 (5368709 / 1073741824) = 5368709 / 1073741824 := by
  refine flRound_eval' 24 _ _ (-8) (-31) 10737418 (by omega) ?_ ?_ (by norm_num) (by norm_num) ?_ ?_
  · rw [pow2_eq_zpow]; norm_num
  · rw [pow2_eq_zpow]; norm_num
  · have h : (5368709 / 1073741824 : ℚ) / pow2 (-31) = 10737418 := by
      rw [pow2_eq_zpow]; norm_num
    rw [h]
    exact_mod_cast rneZ_int 10737418
  · rw [pow2_eq_zpow]; norm_num

lemma fl32_eval_f005 : fl32 (13421773 / 268435456) = 13421773 / 268435456 := by
  refine flRound_eval' 24 _ _ (-5) (-28) 13421773 (by omega) ?_ ?_ (by norm_num) (by norm_num) ?_ ?_
  · rw [pow2_eq_zpow]; norm_num
  · rw [pow2_eq_zpow]; norm_num
  · have h : (13421773 / 268435456 : ℚ) / pow2 (-28) = 13421773 := by
      rw [pow2_eq_zpow]; norm_num
    rw [h]
    exact_mod_cast rneZ_int 13421773
  · rw [pow2_eq_zpow]; norm_num

/-- A positive binary float of at most `prec` significand bits is rounded
to itself. -/
lemma flRound_eval_exact (prec : ℕ) (q : ℚ) (e s m : ℤ)
    (hs : e - ((prec : ℤ) - 1) = s)
    (h1 : pow2 e ≤ q) (h2 : q < pow2 (e+1)) (hlo : -80 ≤ e) (hhi : e ≤ 40)
    (hq : (m:ℚ) * pow2 s = q) : flRound prec q = q := by
  refine flRound_eval' prec q q e s m hs h1 h2 hlo hhi ?_ hq
  have hdiv : q / pow2 s = (m:ℚ) := by
    rw [← hq, mul_div_assoc, div_self (ne_of_gt (pow2_pos s)), mul_one]
  rw [hdiv]
  exact rneZ_int m

lemma fl32_zero : fl32 0 = 0 := flRound_zero 24

lemma fl64_id_A : fl64 (671088625/33554432) = 671088625/33554432 :=
  flRound_eval_exact 53 _ 4 (-48) 5629499408384000 (by omega)
    (by rw [pow2_eq_zpow]; norm_num) (by rw [pow2_eq_zpow]; norm_num)
    (by norm_num) (by norm_num) (by rw [pow2_eq_zpow]; norm_num)

lemma fl64_id_B : fl64 (8388608125/8388608) = 8388608125/8388608 :=
  flRound_eval_exact 53 _ 9 (-43) 8796093153280000 (by omega)
    (by rw [pow2_eq_zpow]; norm_num) (by rw [pow2_eq_zpow]; norm_num)
    (by norm_num) (by norm_num) (by rw [pow2_eq_zpow]; norm_num)

lemma fl64_id_1800 : fl64 (1800) = 1800 :=
  flRound_eval_exact 53 _ 10 (-42) 7916483719987200 (by omega)
    (by rw [pow2_eq_zpow]; norm_num) (by rw [pow2_eq_zpow]; norm_num)
    (by norm_num) (by norm_num) (by rw [pow2_eq_zpow]; norm_num)

lemma fl64_id_2 : fl64 (2) = 2 :=
  flRound_eval_exact 53 _ 1 (-51) 4503599627370496 (by omega)
    (by rw [pow2_eq_zpow]; norm_num) (by rw [pow2_eq_zpow]; norm_num)
    (by norm_num) (by norm_num) (by rw [pow2_eq_zpow]; norm_num)

lemma fl64_id_10 : fl64 (10) = 10 :=
  flRound_eval_exact 53 _ 3 (-49) 5629499534213120 (by omega)
    (by rw [pow2_eq_zpow]; norm_num) (by rw [pow2_eq_zpow]; norm_num)
    (by norm_num) (by norm_num) (by rw [pow2_eq_zpow]; norm_num)

lemma fl64_id_30 : fl64 (30) = 30 :=
  flRound_eval_exact 53 _ 4 (-48) 8444249301319680 (by omega)
    (by rw [pow2_eq_zpow]; norm_num) (by rw [pow2_eq_zpow]; norm_num)
    (by norm_num) (by norm_num) (by rw [pow2_eq_zpow]; norm_num)

lemma rneZ_A : rneZ (671088625/33554432) = 20 := by
  have h := rneZ_eval_gt (671088625/33554432) 19 (by norm_num) (by norm_num) (by norm_num)
  omega

lemma rneZ_B : rneZ (8388608125/8388608) = 1000 :=
  rneZ_eval_lt _ 1000 (by norm_num) (by norm_num)

lemma rneZ_1800 : rneZ (1800:ℚ) = 1800 := by
  have := rneZ_int 1800; exact_mod_cast this

lemma rneZ_2 : rneZ (2:ℚ) = 2 := by
  have := rneZ_int 2; exact_mod_cast this

lemma rneZ_10 : rneZ (10:ℚ) = 10 := by
  have := rneZ_int 10; exact_mod_cast this

lemma rneZ_30 : rneZ (30:ℚ) = 30 := by
  have := rneZ_int 30; exact_mod_cast this

namespace BrokerKnobSpace

lemma zero_eps_eval : zero_eps = 5764607523034235 / 576460752303423488 := by
  unfold zero_eps; exact fl64_eval_inv100

lemma quantize_zero (step low high : ℤ) : quantize 0 step low high = 0 := by
  unfold quantize; simp

lemma interp_eval_mifm : interp_with_zero (5368709/536870912) 0 2000 = 20 := by
  unfold interp_with_zero
  rw [if_neg (by rw [zero_eps_eval]; norm_num)]
  have h1 : (5368709/536870912 : ℚ) * (((2000:ℤ) - 0 : ℤ) : ℚ) = 671088625/33554432 := by
    push_cast; norm_num
  rw [h1, fl64_id_A]
  have h2 : (((0:ℤ)) : ℚ) + (671088625/33554432 : ℚ) = 671088625/33554432 := by
    push_cast; norm_num
  rw [h2, fl64_id_A, rneZ_A]

lemma interp_eval_mqm : interp_with_zero (13421773/268435456) 0 20000 = 1000 := by
  unfold interp_with_zero
  rw [if_neg (by rw [zero_eps_eval]; norm_num)]
  have h1 : (13421773/268435456 : ℚ) * (((20000:ℤ) - 0 : ℤ) : ℚ) = 8388608125/8388608 := by
    push_cast; norm_num
  rw [h1, fl64_id_B]
  have h2 : (((0:ℤ)) : ℚ) + (8388608125/8388608 : ℚ) = 8388608125/8388608 := by
    push_cast; norm_num
  rw [h2, fl64_id_B, rneZ_B]

lemma interp_eval_auto : interp_with_zero (1/2) 0 3600 = 1800 := by
  unfold interp_with_zero
  rw [if_neg (by rw [zero_eps_eval]; norm_num)]
  have h1 : (1/2 : ℚ) * (((3600:ℤ) - 0 : ℤ) : ℚ) = 1800 := by push_cast; norm_num
  rw [h1, fl64_id_1800]
  have h2 : (((0:ℤ)) : ℚ) + (1800 : ℚ) = 1800 := by push_cast; norm_num
  rw [h2, fl64_id_1800, rneZ_1800]

lemma interp_eval_zero {v : ℚ} (h : v < 5764607523034235 / 1152921504606846976)
    (low high : ℤ) : interp_with_zero v low high = 0 := by
  unfold interp_with_zero
  rw [if_pos (by rw [zero_eps_eval]; linarith)]

lemma quantize_eval_mifm : quantize 20 10 0 2000 = 20 := by
  unfold quantize
  rw [if_neg (by norm_num), if_neg (by norm_num)]
  have h1 : (((20:ℤ)) : ℚ) / (((10:ℤ)) : ℚ) = 2 := by push_cast; norm_num
  rw [h1, fl64_id_2, rneZ_2]
  norm_num

lemma quantize_eval_mqm : quantize 1000 100 0 20000 = 1000 := by
  unfold quantize
  rw [if_neg (by norm_num), if_neg (by norm_num)]
  have h1 : (((1000:ℤ)) : ℚ) / (((100:ℤ)) : ℚ) = 10 := by push_cast; norm_num
  rw [h1, fl64_id_10, rneZ_10]
  norm_num

lemma quantize_eval_auto : quantize 1800 60 0 3600 = 1800 := by
  unfold quantize
  rw [if_neg (by norm_num), if_neg (by norm_num)]
  have h1 : (((1800:ℤ)) : ℚ) / (((60:ℤ)) : ℚ) = 30 := by push_cast; norm_num
  rw [h1, fl64_id_30, rneZ_30]
  norm_num

end BrokerKnobSpace

namespace BrokerKnobSpace

/-- The encoded default configuration, evaluated: float32 of
`0.01, 0.005, 0.05, 0.005, 0, 0.005, 0, 0.5, 0, 0.005, 0.005`. -/
lemma encode_default_eval :
    encode_knobs get_default_knobs =
      [5368709/536870912, 5368709/1073741824, 13421773/268435456, 5368709/1073741824, 0,
       5368709/1073741824, 0, 1/2, 0, 5368709/1073741824, 5368709/1073741824] := by
  unfold encode_knobs get_default_knobs encode_with_zero
  norm_num [max_inflight_messages_range, max_inflight_bytes_range, max_queued_messages_range,
    max_queued_bytes_range, memory_limit_range, autosave_interval_range,
    max_packet_size_range, message_size_limit_range, zero_eps_eval,
    fl64_eval_inv100, fl64_eval_inv20, fl64_eval_half,
    fl32_eval_d001, fl32_eval_d0005, fl32_eval_d005, fl32_eval_half, fl32_zero]

/-- Decoding the encoded default action recovers the default knobs. -/
lemma decode_encoded_default_eval :
    decode_action
      [5368709/536870912, 5368709/1073741824, 13421773/268435456, 5368709/1073741824, 0,
       5368709/1073741824, 0, 1/2, 0, 5368709/1073741824, 5368709/1073741824] =
      Except.ok get_default_knobs := by
  unfold decode_action clip01f32 decodeNum get_default_knobs
  norm_num [max_inflight_messages_range, max_inflight_bytes_range, max_queued_messages_range,
    max_queued_bytes_range, memory_limit_range, autosave_interval_range,
    max_packet_size_range, message_size_limit_range,
    max_inflight_messages_step, max_inflight_bytes_step, max_queued_messages_step,
    max_queued_bytes_step, memory_limit_step, autosave_interval_step,
    max_packet_size_step, message_size_limit_step,
    fl32_eval_f001, fl32_eval_f0005, fl32_eval_f005, fl32_eval_half, fl32_zero,
    interp_eval_mifm, interp_eval_mqm, interp_eval_auto,
    interp_eval_zero (by norm_num : (5368709/1073741824 : ℚ) <
      5764607523034235 / 1152921504606846976),
    quantize_eval_mifm, quantize_eval_mqm, quantize_eval_auto, quantize_zero,
    zero_eps_eval]

end BrokerKnobSpace

/-- Claim C3: Decoding the encoded default `KnobDict` recovers it exactly,
and an action whose every coordinate is exactly `zero_eps/2` (the Python
value `0.005`, i.e. the double `0.01/2.0`) decodes to the sentinel `0`
for every unlimited-capable numeric knob (and `false` for the booleans):
the float32 cast lands strictly below the `zero_eps/2` threshold
(knobs.py `encode_knobs`, `decode_action`, `_interp_with_zero`). -/
theorem decode_encode_default_roundtrip :
    BrokerKnobSpace.decode_action
        (BrokerKnobSpace.encode_knobs BrokerKnobSpace.get_default_knobs) =
      Except.ok BrokerKnobSpace.get_default_knobs ∧
    BrokerKnobSpace.decode_action (List.replicate 11 (BrokerKnobSpace.zero_eps / 2)) =
      Except.ok
        { max_inflight_messages := 0
          max_inflight_bytes := 0
          max_queued_messages := 0
          max_queued_bytes := 0
          queue_qos0_messages := false
          memory_limit := 0
          persistence := false
          autosave_interval := 0
          set_tcp_nodelay := false
          max_packet_size := 0
          message_size_limit := 0 } := by
  constructor
  · rw [BrokerKnobSpace.encode_default_eval]
    exact BrokerKnobSpace.decode_encoded_default_eval
  · have hth : BrokerKnobSpace.zero_eps / 2 = 5764607523034235 / 1152921504606846976 := by
      rw [BrokerKnobSpace.zero_eps_eval]; norm_num
    rw [hth]
    show BrokerKnobSpace.decode_action
      [5764607523034235 / 1152921504606846976, 5764607523034235 / 1152921504606846976,
       5764607523034235 / 1152921504606846976, 5764607523034235 / 1152921504606846976,
       5764607523034235 / 1152921504606846976, 5764607523034235 / 1152921504606846976,
       5764607523034235 / 1152921504606846976, 5764607523034235 / 1152921504606846976,
       5764607523034235 / 1152921504606846976, 5764607523034235 / 1152921504606846976,
       5764607523034235 / 1152921504606846976] = _
    unfold BrokerKnobSpace.decode_action BrokerKnobSpace.clip01f32 BrokerKnobSpace.decodeNum
    norm_num [fl32_eval_d0005,
      BrokerKnobSpace.interp_eval_zero (by norm_num : (5368709/1073741824 : ℚ) <
        5764607523034235 / 1152921504606846976),
      BrokerKnobSpace.quantize_zero]

/-! ## Broker configuration file construction
(`environment/knobs.py`, `apply_knobs`, lines 411-503)

The file is line oriented (`key value` per line).  Lines are modelled
structurally: a comment, a blank line, or a `key value` entry; the Python
code renders an entry as the string `f"{key} {v_str}"` with booleans as
`true`/`false` and numbers via `int(...)` (`add_line`, lines 448-454).
Only the pure file-content construction is modelled; the dry-run printing
and the subprocess stop/start orchestration are process effects outside
the model. -/

inductive ConfValue where
  | int (n : ℤ)
  | bool (b : Bool)
  | str (s : String)
deriving DecidableEq, Repr

inductive ConfigLine where
  | comment (text : String)
  | blank
  | entry (key : String) (value : ConfValue)
deriving DecidableEq, Repr

/-- The fallback template used when `broker_template.conf` is absent
(knobs.py lines 423-446); the repository does not ship the template file,
so this is the template visible in the source. -/
def broker_template_fallback : List ConfigLine :=
  [ .comment "BrokerTuner - complete Mosquitto broker configuration file",
    .comment "usable directly: mosquitto -c broker_tuner.conf",
    .comment "auto-generated; the best configuration is kept during training",
    .comment "do not edit by hand, the file may be overwritten",
    .blank,
    .comment "PID file location (used to track the process)",
    .entry "pid_file" (.str "mosquitto_broker_tuner.pid"),
    .blank,
    .comment "listen on port 1883 (standard MQTT port)",
    .entry "listener" (.int 1883),
    .blank,
    .comment "allow anonymous connections (for test and development)",
    .entry "allow_anonymous" (.bool true),
    .blank,
    .comment "persistence configuration",
    .entry "persistence" (.bool false),
    .blank,
    .comment "logging configuration",
    .entry "log_type" (.str "none"),
    .blank,
    .comment "SYS topic configuration",
    .entry "sys_interval" (.int 1) ]

/-- Replace the first non-comment `persistence` line, or append one at the
end when none exists (knobs.py lines 460-469: the `for ... else` loop). -/
def setPersistenceLine (b : Bool) : List ConfigLine → List ConfigLine
  | [] => [ConfigLine.entry "persistence" (ConfValue.bool b)]
  | l :: ls =>
    match l with
    | ConfigLine.entry "persistence" _ => ConfigLine.entry "persistence" (ConfValue.bool b) :: ls
    | _ => l :: setPersistenceLine b ls

/-- The dynamically tuned knob lines appended after the template (knobs.py
lines 471-503).  A `KnobDict` always carries all eleven keys, so the
Python `"..." in knobs` checks are all true; the `> 0` value guards remain. -/
def apply_knobs_lines (knobs : KnobDict) : List ConfigLine :=
  let lines := broker_template_fallback
  let lines := setPersistenceLine knobs.persistence lines
  let lines := lines ++
    [ .blank,
      .comment "============================================",
      .comment "configuration parameters tuned during training",
      .comment "============================================",
      .blank ]
  let lines := lines ++ [ConfigLine.entry "max_inflight_messages" (.int knobs.max_inflight_messages)]
  let lines := lines ++
    (if 0 < knobs.max_inflight_bytes then
      [ConfigLine.entry "max_inflight_bytes" (.int knobs.max_inflight_bytes)] else [])
  let lines := lines ++ [ConfigLine.entry "max_queued_messages" (.int knobs.max_queued_messages)]
  let lines := lines ++
    (if 0 < knobs.max_queued_bytes then
      [ConfigLine.entry "max_queued_bytes" (.int knobs.max_queued_bytes)] else [])
  let lines := lines ++ [ConfigLine.entry "queue_qos0_messages" (.bool knobs.queue_qos0_messages)]
  let lines := lines ++
    (if 0 < knobs.memory_limit then
      [ConfigLine.entry "memory_limit" (.int knobs.memory_limit)] else [])
  let lines := lines ++
    (if 0 < knobs.autosave_interval then
      [ConfigLine.entry "autosave_interval" (.int knobs.autosave_interval)] else [])
  let lines := lines ++ [ConfigLine.entry "set_tcp_nodelay" (.bool knobs.set_tcp_nodelay)]
  let lines := lines ++
    (if 0 < knobs.max_packet_size then
      [ConfigLine.entry "max_packet_size" (.int (max 20 knobs.max_packet_size))] else [])
  let lines := lines ++
    (if 0 < knobs.message_size_limit then
      [ConfigLine.entry "message_size_limit" (.int knobs.message_size_limit)] else [])
  lines

lemma mem_ite_singleton {α : Type} (c : Prop) [Decidable c] (x y : α) :
    (y ∈ if c then [x] else ([] : List α)) ↔ (c ∧ y = x) := by
  split <;> simp_all

/-- Claim C7, counterexample: The claim says `max_inflight_messages` (a
zero-means-unlimited knob) is omitted from the file when 0; the code
writes it unconditionally (knobs.py line 478-479 has no `> 0` guard), so
the default knobs with `max_inflight_messages := 0` produce a
`max_inflight_messages 0` line. -/
theorem apply_knobs_writes_zero_inflight_messages :
    ConfigLine.entry "max_inflight_messages" (ConfValue.int 0) ∈
      apply_knobs_lines { BrokerKnobSpace.get_default_knobs with max_inflight_messages := 0 } := by
  simp [apply_knobs_lines, setPersistenceLine, broker_template_fallback,
    BrokerKnobSpace.get_default_knobs]

/-- Claim C7, amended: Characterization of knob-derived lines in the
generated configuration file: `max_packet_size` is omitted when the knob
is ≤ 0 and written clamped to at least 20 when positive; the
zero-means-unlimited knobs `max_inflight_bytes`, `max_queued_bytes`,
`memory_limit`, `autosave_interval`, `message_size_limit` are omitted
when ≤ 0 and written verbatim when positive; but `max_inflight_messages`
and `max_queued_messages` are always written, even when 0
(knobs.py lines 477-503). -/
theorem apply_knobs_line_characterization (kd : KnobDict) :
    ((kd.max_packet_size ≤ 0 → ∀ v, ConfigLine.entry "max_packet_size" v ∉ apply_knobs_lines kd) ∧
     (0 < kd.max_packet_size →
       ConfigLine.entry "max_packet_size" (ConfValue.int (max 20 kd.max_packet_size)) ∈
         apply_knobs_lines kd)) ∧
    ((kd.max_inflight_bytes ≤ 0 →
       ∀ v, ConfigLine.entry "max_inflight_bytes" v ∉ apply_knobs_lines kd) ∧
     (0 < kd.max_inflight_bytes →
       ConfigLine.entry "max_inflight_bytes" (ConfValue.int kd.max_inflight_bytes) ∈
         apply_knobs_lines kd)) ∧
    ((kd.max_queued_bytes ≤ 0 →
       ∀ v, ConfigLine.entry "max_queued_bytes" v ∉ apply_knobs_lines kd) ∧
     (0 < kd.max_queued_bytes →
       ConfigLine.entry "max_queued_bytes" (ConfValue.int kd.max_queued_bytes) ∈
         apply_knobs_lines kd)) ∧
    ((kd.memory_limit ≤ 0 → ∀ v, ConfigLine.entry "memory_limit" v ∉ apply_knobs_lines kd) ∧
     (0 < kd.memory_limit →
       ConfigLine.entry "memory_limit" (ConfValue.int kd.memory_limit) ∈ apply_knobs_lines kd)) ∧
    ((kd.autosave_interval ≤ 0 →
       ∀ v, ConfigLine.entry "autosave_interval" v ∉ apply_knobs_lines kd) ∧
     (0 < kd.autosave_interval →
       ConfigLine.entry "autosave_interval" (ConfValue.int kd.autosave_interval) ∈
         apply_knobs_lines kd)) ∧
    ((kd.message_size_limit ≤ 0 →
       ∀ v, ConfigLine.entry "message_size_limit" v ∉ apply_knobs_lines kd) ∧
     (0 < kd.message_size_limit →
       ConfigLine.entry "message_size_limit" (ConfValue.int kd.message_size_limit) ∈
         apply_knobs_lines kd)) ∧
    ConfigLine.entry "max_inflight_messages" (ConfValue.int kd.max_inflight_messages) ∈
      apply_knobs_lines kd ∧
    ConfigLine.entry "max_queued_messages" (ConfValue.int kd.max_queued_messages) ∈
      apply_knobs_lines kd := by
  refine ⟨⟨?_, ?_⟩, ⟨?_, ?_⟩, ⟨?_, ?_⟩, ⟨?_, ?_⟩, ⟨?_, ?_⟩, ⟨?_, ?_⟩, ?_, ?_⟩ <;>
    first
    | (intro hle v
       simp [apply_knobs_lines, setPersistenceLine, broker_template_fallback,
         mem_ite_singleton]
       omega)
    | (intro hpos
       simp [apply_knobs_lines, setPersistenceLine, broker_template_fallback,
         mem_ite_singleton, hpos])
    | (simp [apply_knobs_lines, setPersistenceLine, broker_template_fallback,
        mem_ite_singleton])

/-! ## Environment configuration (`environment/config.py`, `EnvConfig`)

Only the fields used by the modelled operations are included.  Decimal
float constants are modelled by their exact decimal values: none of them
take part in a branch decision where the double-rounding error of the
literal could flip the branch. -/

structure EnvCfg where
  step_interval_sec : ℚ := 12
  broker_restart_stable_sec : ℚ := 20
  apply_default_on_reset : Bool := true
  baseline_per_episode : Bool := true
  baseline_min_throughput : ℚ := 5/100
  baseline_min_clients_norm : ℚ := 1/1000
  baseline_max_attempts : ℕ := 5
  max_steps : ℕ := 200
  state_dim : ℕ := 10
  action_dim : ℕ := 11
  reward_scale : ℚ := 5
  reward_weight_base : ℚ := 8/10
  reward_weight_step : ℚ := 2/10
  reward_weight_latency_base : ℚ := 2/10
  reward_weight_latency_step : ℚ := 1/10
  reward_clip : ℚ := 5
  reward_delta_clip : ℚ := 2
  reward_use_tanh : Bool := true
  reward_latency_floor_norm : ℚ := 1/100
  failed_step_penalty : ℚ := -3
  max_consecutive_failures : ℕ := 3
deriving Repr

/-- Model of `EnvConfig()` with all defaults (config.py lines 79-149). -/
def defaultEnvCfg : EnvCfg := {}

/-- An observation: the 10-dimensional state vector (`build_state_vector`). -/
abbrev Obs := List ℚ

/-- Model of `MosquittoBrokerEnv._extract_throughput` (broker.py line 844):
component [1], the normalized message rate. -/
def extract_throughput (state : Obs) : ℚ := state.getD 1 0

/-- Model of `MosquittoBrokerEnv._extract_latency` (broker.py line 856):
component [5], the normalized p50 latency. -/
def extract_latency (state : Obs) : ℚ := state.getD 5 0

/-- Model of `np.mean` of a nonempty list of rationals. -/
def qmean (l : List ℚ) : ℚ := l.sum / l.length

/-! ## Reward (`environment/broker.py`, `_compute_reward`, lines 706-819)

The pre-squash relative deltas are exact rational arithmetic; the
squash (`tanh` or clip), weighting and final clip live in ℝ. -/

/-- The four relative deltas computed by `_compute_reward` before
squashing, in source order: `(Δ_tp_base, Δ_tp_step, Δ_lat_base,
Δ_lat_step)`.  `initial_state` is `self._initial_state` (the episode
baseline), `tpHist`/`latHist` are `self._throughput_history` /
`self._latency_history`. -/
def computeRewardDeltas (cfg : EnvCfg) (initial_state : Option Obs)
    (tpHist latHist : List ℚ) (prev_state : Option Obs) (next_state : Obs) :
    ℚ × ℚ × ℚ × ℚ :=
  let eps : ℚ := 1/1000000
  let denom_floor := max cfg.baseline_min_throughput eps
  let latency_floor := max cfg.reward_latency_floor_norm eps
  let current_throughput := extract_throughput next_state
  let prev_throughput :=
    match prev_state with
    | some s => extract_throughput s
    | none => current_throughput
  let current_latency := extract_latency next_state
  let prev_latency :=
    match prev_state with
    | some s => extract_latency s
    | none => current_latency
  let initial_throughput :=
    match initial_state with
    | some s => extract_throughput s
    | none => current_throughput
  let initial_latency :=
    match initial_state with
    | some s => extract_latency s
    | none => current_latency
  let avg_throughput := if tpHist ≠ [] then qmean tpHist else current_throughput
  let avg_latency := if latHist ≠ [] then qmean latHist else current_latency
  let delta_throughput_base :=
    if initial_throughput < denom_floor then 0
    else (avg_throughput - initial_throughput) / initial_throughput
  let denom_step := max prev_throughput denom_floor
  let delta_throughput_step := (current_throughput - prev_throughput) / denom_step
  let delta_latency_base :=
    if initial_latency < latency_floor then 0
    else (initial_latency - avg_latency) / initial_latency
  let delta_latency_step := (prev_latency - current_latency) / max prev_latency latency_floor
  (delta_throughput_base, delta_throughput_step, delta_latency_base, delta_latency_step)

/-- The squash applied to each delta: `np.tanh` when `reward_use_tanh`,
otherwise `np.clip(·, -reward_delta_clip, reward_delta_clip)`. -/
noncomputable def squashDelta (cfg : EnvCfg) (d : ℚ) : ℝ :=
  if cfg.reward_use_tanh then Real.tanh (d : ℝ)
  else min (max (d : ℝ) (-(cfg.reward_delta_clip : ℝ))) (cfg.reward_delta_clip : ℝ)

/-- Model of `_compute_reward`: weighted squashed deltas, scaled, clipped to
`±reward_clip`.  (The NaN/Inf guard has no counterpart in ℝ.) -/
noncomputable def compute_reward (cfg : EnvCfg) (initial_state : Option Obs)
    (tpHist latHist : List ℚ) (prev_state : Option Obs) (next_state : Obs) : ℝ :=
  let d := computeRewardDeltas cfg initial_state tpHist latHist prev_state next_state
  let reward : ℝ := (cfg.reward_scale : ℝ) *
    ((cfg.reward_weight_base : ℝ) * squashDelta cfg d.1
      + (cfg.reward_weight_step : ℝ) * squashDelta cfg d.2.1
      + (cfg.reward_weight_latency_base : ℝ) * squashDelta cfg d.2.2.1
      + (cfg.reward_weight_latency_step : ℝ) * squashDelta cfg d.2.2.2)
  min (max reward (-(cfg.reward_clip : ℝ))) (cfg.reward_clip : ℝ)

lemma tanh_nonneg_of_nonneg {x : ℝ} (h : 0 ≤ x) : 0 ≤ Real.tanh x := by
  rw [Real.tanh_eq_sinh_div_cosh]
  exact div_nonneg (Real.sinh_nonneg_iff.mpr h) (Real.cosh_pos x).le

lemma tanh_neg_of_neg {x : ℝ} (h : x < 0) : Real.tanh x < 0 := by
  rw [Real.tanh_eq_sinh_div_cosh]
  have hs : Real.sinh x < 0 := by
    have h2 := Real.sinh_lt_sinh.mpr h
    rwa [Real.sinh_zero] at h2
  exact div_neg_of_neg_of_pos hs (Real.cosh_pos x)

/-! ### C1: baseline deltas of the reward -/

/-- The spec's formula for the baseline throughput delta:
`d_T_base = (T_avg - T_base) / max(T_base, throughput_floor)`
(spec §4.6.4).  Written from the spec's words, for comparison with the
source-derived `computeRewardDeltas`. -/
def specDeltaTBase (cfg : EnvCfg) (tAvg tBase : ℚ) : ℚ :=
  (tAvg - tBase) / max tBase (max cfg.baseline_min_throughput (1/1000000))

/-- The spec's formula for the baseline latency delta:
`d_L_base = (L_base - L_avg) / max(L_base, latency_floor)` (spec §4.6.4). -/
def specDeltaLBase (cfg : EnvCfg) (lAvg lBase : ℚ) : ℚ :=
  (lBase - lAvg) / max lBase (max cfg.reward_latency_floor_norm (1/1000000))

/-- Claim C1, counterexample: With a baseline throughput of `0.02` (below the
`0.05` floor, as can happen on a first reset whose viability attempts all
fail) and a window mean of `0.04`, the code's baseline delta is `0` while
the spec formula `(T_avg - T_base)/max(T_base, floor)` gives `2/5`
(broker.py lines 744-747: the code divides by `initial_throughput`
itself and returns 0 outright below the floor, it never divides by the
floor). -/
theorem reward_base_delta_floor_counterexample :
    (computeRewardDeltas defaultEnvCfg
        (some [0, 1/50, 0, 0, 0, 1/5, 0, 0, 0, 0]) [1/25] [1/5]
        (some [0, 1/25, 0, 0, 0, 1/5, 0, 0, 0, 0]) [0, 1/25, 0, 0, 0, 1/5, 0, 0, 0, 0]).1
      = 0 ∧
    specDeltaTBase defaultEnvCfg (1/25) (1/50) = 2/5 ∧
    (0 : ℚ) ≠ 2/5 := by
  refine ⟨?_, ?_, by norm_num⟩
  · norm_num [computeRewardDeltas, extract_throughput, extract_latency, qmean,
      defaultEnvCfg, List.getD]
  · norm_num [specDeltaTBase, defaultEnvCfg]

/-- Claim C1, amended: The baseline deltas agree with the spec formulas
whenever the baseline component is at least its floor (there
`max(T_base, floor) = T_base`); strictly below the floor the delta is 0,
not the spec formula; and when baseline statistics are absent the
baseline components default to the current observation's values
(broker.py lines 726-755). -/
theorem compute_reward_base_deltas_amended (cfg : EnvCfg) (initial : Obs)
    (tpHist latHist : List ℚ) (prev : Option Obs) (next : Obs)
    (htp : tpHist ≠ []) (hlat : latHist ≠ []) :
    ((max cfg.baseline_min_throughput (1/1000000) ≤ extract_throughput initial →
        (computeRewardDeltas cfg (some initial) tpHist latHist prev next).1 =
          specDeltaTBase cfg (qmean tpHist) (extract_throughput initial)) ∧
     (extract_throughput initial < max cfg.baseline_min_throughput (1/1000000) →
        (computeRewardDeltas cfg (some initial) tpHist latHist prev next).1 = 0)) ∧
    ((max cfg.reward_latency_floor_norm (1/1000000) ≤ extract_latency initial →
        (computeRewardDeltas cfg (some initial) tpHist latHist prev next).2.2.1 =
          specDeltaLBase cfg (qmean latHist) (extract_latency initial)) ∧
     (extract_latency initial < max cfg.reward_latency_floor_norm (1/1000000) →
        (computeRewardDeltas cfg (some initial) tpHist latHist prev next).2.2.1 = 0)) ∧
    computeRewardDeltas cfg none tpHist latHist prev next =
      computeRewardDeltas cfg (some next) tpHist latHist prev next := by
  refine ⟨⟨?_, ?_⟩, ⟨?_, ?_⟩, ?_⟩
  · intro hge
    simp only [computeRewardDeltas, specDeltaTBase, if_neg (not_lt.mpr hge), htp,
      if_pos, ne_eq, not_false_iff]
    rw [max_eq_left hge]
  · intro hlt
    simp only [computeRewardDeltas, if_pos hlt, htp, ne_eq, not_false_iff]
  · intro hge
    simp only [computeRewardDeltas, specDeltaLBase, if_neg (not_lt.mpr hge), hlat,
      if_pos, ne_eq, not_false_iff]
    rw [max_eq_left hge]
  · intro hlt
    simp only [computeRewardDeltas, if_pos hlt, hlat, ne_eq, not_false_iff]
  · rfl

/-- Closed witness for `compute_reward_base_deltas_amended`. -/
theorem compute_reward_base_deltas_amended_witness :
    (computeRewardDeltas defaultEnvCfg (some [0, 1/10, 0, 0, 0, 2/10, 0, 0, 0, 0])
        [1/10] [2/10] none [0, 1/10, 0, 0, 0, 2/10, 0, 0, 0, 0]).1 =
      specDeltaTBase defaultEnvCfg (qmean [1/10])
        (extract_throughput [0, 1/10, 0, 0, 0, 2/10, 0, 0, 0, 0]) :=
  (compute_reward_base_deltas_amended defaultEnvCfg
      [0, 1/10, 0, 0, 0, 2/10, 0, 0, 0, 0] [1/10] [2/10] none
      [0, 1/10, 0, 0, 0, 2/10, 0, 0, 0, 0]
      (by simp) (by simp)).1.1
    (by norm_num [defaultEnvCfg, extract_throughput, List.getD])

/-! ### C8: reward sign -/

/-- Claim C8, counterexample: All four hypotheses of the claim hold
(`T_now > T_base`, `L_now ≤ L_base`, `T_now ≥ T_prev`, `L_now ≤ L_prev`)
yet the reward is negative, because the baseline delta uses the
sliding-window mean, which earlier low-throughput steps drag below the
baseline (broker.py lines 735-747).  Baseline throughput `0.2`, window
`[0.01, 0.01, 0.01, 0.3, 0.3]` (mean `0.126`), previous and current
throughput `0.3`, all latencies `0.2`. -/
theorem reward_sign_counterexample :
    ((3:ℚ)/10 > 1/5 ∧ (1:ℚ)/5 ≤ 1/5 ∧ (3:ℚ)/10 ≥ 3/10 ∧ (1:ℚ)/5 ≤ 1/5) ∧
    compute_reward defaultEnvCfg (some [0, 1/5, 0, 0, 0, 1/5, 0, 0, 0, 0])
      [1/100, 1/100, 1/100, 3/10, 3/10] [1/5, 1/5, 1/5, 1/5, 1/5]
      (some [0, 3/10, 0, 0, 0, 1/5, 0, 0, 0, 0])
      [0, 3/10, 0, 0, 0, 1/5, 0, 0, 0, 0] < 0 := by
  refine ⟨⟨by norm_num, by norm_num, by norm_num, by norm_num⟩, ?_⟩
  have hd : computeRewardDeltas defaultEnvCfg (some [0, 1/5, 0, 0, 0, 1/5, 0, 0, 0, 0])
      [1/100, 1/100, 1/100, 3/10, 3/10] [1/5, 1/5, 1/5, 1/5, 1/5]
      (some [0, 3/10, 0, 0, 0, 1/5, 0, 0, 0, 0]) [0, 3/10, 0, 0, 0, 1/5, 0, 0, 0, 0]
      = (-37/100, 0, 0, 0) := by
    norm_num [computeRewardDeltas, extract_throughput, extract_latency, qmean,
      defaultEnvCfg, List.getD, List.cons_ne_nil]
  unfold compute_reward
  rw [hd]
  have hsq0 : squashDelta defaultEnvCfg 0 = 0 := by
    unfold squashDelta defaultEnvCfg
    norm_num
  have hsqneg : squashDelta defaultEnvCfg (-37/100) < 0 := by
    unfold squashDelta defaultEnvCfg
    simp only [if_pos]
    apply tanh_neg_of_neg
    norm_num
  refine lt_of_le_of_lt (min_le_left _ _) (max_lt ?_ (by norm_num [defaultEnvCfg]))
  simp only [hsq0]
  have h5 : (defaultEnvCfg.reward_scale : ℝ) = 5 := by norm_num [defaultEnvCfg]
  have hw : (defaultEnvCfg.reward_weight_base : ℝ) = 8/10 := by norm_num [defaultEnvCfg]
  have hw2 : (defaultEnvCfg.reward_weight_step : ℝ) = 2/10 := by norm_num [defaultEnvCfg]
  have hw3 : (defaultEnvCfg.reward_weight_latency_base : ℝ) = 2/10 := by
    norm_num [defaultEnvCfg]
  have hw4 : (defaultEnvCfg.reward_weight_latency_step : ℝ) = 1/10 := by
    norm_num [defaultEnvCfg]
  rw [h5, hw, hw2, hw3, hw4]
  nlinarith [hsqneg]

lemma squashDelta_nonneg (cfg : EnvCfg) {d : ℚ} (hd : 0 ≤ d)
    (hdc : 0 ≤ cfg.reward_delta_clip) : 0 ≤ squashDelta cfg d := by
  unfold squashDelta
  split
  · exact tanh_nonneg_of_nonneg (by exact_mod_cast hd)
  · apply le_min
    · exact le_max_of_le_left (by exact_mod_cast hd)
    · exact_mod_cast hdc

/-- Claim C8, amended: The reward is nonnegative under the claim's
hypotheses *strengthened with the sliding-window conditions the code
actually uses*: additionally `T_avg ≥ T_base` and `L_avg ≤ L_base`,
where `T_avg`/`L_avg` are the window means (broker.py lines 735-788;
weights, scale and clips nonnegative as in the default config). -/
theorem reward_nonneg_amended (cfg : EnvCfg) (initial prev next : Obs)
    (tpHist latHist : List ℚ)
    (hw1 : 0 ≤ cfg.reward_weight_base) (hw2 : 0 ≤ cfg.reward_weight_step)
    (hw3 : 0 ≤ cfg.reward_weight_latency_base) (hw4 : 0 ≤ cfg.reward_weight_latency_step)
    (hsc : 0 ≤ cfg.reward_scale) (hdc : 0 ≤ cfg.reward_delta_clip)
    (hrc : 0 ≤ cfg.reward_clip)
    (hTb : extract_throughput initial < extract_throughput next)
    (hLb : extract_latency next ≤ extract_latency initial)
    (hTs : extract_throughput prev ≤ extract_throughput next)
    (hLs : extract_latency next ≤ extract_latency prev)
    (htpavg : tpHist ≠ [] → extract_throughput initial ≤ qmean tpHist)
    (hlatavg : latHist ≠ [] → qmean latHist ≤ extract_latency initial)
    (htpavg' : tpHist = [] → extract_throughput initial ≤ extract_throughput next)
    (hlatavg' : latHist = [] → extract_latency next ≤ extract_latency initial) :
    0 ≤ compute_reward cfg (some initial) tpHist latHist (some prev) next := by
  have hfl : (0:ℚ) < max cfg.baseline_min_throughput (1/1000000) :=
    lt_of_lt_of_le (by norm_num) (le_max_right _ _)
  have hfl2 : (0:ℚ) < max cfg.reward_latency_floor_norm (1/1000000) :=
    lt_of_lt_of_le (by norm_num) (le_max_right _ _)
  have hd := computeRewardDeltas cfg (some initial) tpHist latHist (some prev) next
  have h1 : 0 ≤ (computeRewardDeltas cfg (some initial) tpHist latHist (some prev) next).1 := by
    simp only [computeRewardDeltas]
    split
    · exact le_refl 0
    case isFalse hge =>
      push_neg at hge
      apply div_nonneg _ (le_trans (le_of_lt hfl) hge)
      split
      case isTrue hne => linarith [htpavg hne]
      case isFalse hne =>
        push_neg at hne
        linarith [htpavg' (by simpa using hne)]
  have h2 : 0 ≤ (computeRewardDeltas cfg (some initial) tpHist latHist (some prev) next).2.1 := by
    simp only [computeRewardDeltas]
    apply div_nonneg (by linarith)
    exact le_trans (le_of_lt hfl) (le_max_right _ _)
  have h3 : 0 ≤ (computeRewardDeltas cfg (some initial)
      tpHist latHist (some prev) next).2.2.1 := by
    simp only [computeRewardDeltas]
    split
    · exact le_refl 0
    case isFalse hge =>
      push_neg at hge
      apply div_nonneg _ (le_trans (le_of_lt hfl2) hge)
      split
      case isTrue hne => linarith [hlatavg hne]
      case isFalse hne =>
        push_neg at hne
        linarith [hlatavg' (by simpa using hne)]
  have h4 : 0 ≤ (computeRewardDeltas cfg (some initial)
      tpHist latHist (some prev) next).2.2.2 := by
    simp only [computeRewardDeltas]
    apply div_nonneg (by linarith)
    exact le_trans (le_of_lt hfl2) (le_max_right _ _)
  unfold compute_reward
  have hs1 := squashDelta_nonneg cfg h1 hdc
  have hs2 := squashDelta_nonneg cfg h2 hdc
  have hs3 := squashDelta_nonneg cfg h3 hdc
  have hs4 := squashDelta_nonneg cfg h4 hdc
  have hsum : (0:ℝ) ≤ (cfg.reward_scale : ℝ) *
      ((cfg.reward_weight_base : ℝ) * squashDelta cfg
          (computeRewardDeltas cfg (some initial) tpHist latHist (some prev) next).1
        + (cfg.reward_weight_step : ℝ) * squashDelta cfg
          (computeRewardDeltas cfg (some initial) tpHist latHist (some prev) next).2.1
        + (cfg.reward_weight_latency_base : ℝ) * squashDelta cfg
          (computeRewardDeltas cfg (some initial) tpHist latHist (some prev) next).2.2.1
        + (cfg.reward_weight_latency_step : ℝ) * squashDelta cfg
          (computeRewardDeltas cfg (some initial) tpHist latHist (some prev) next).2.2.2) := by
    have hw1' : (0:ℝ) ≤ (cfg.reward_weight_base : ℝ) := by exact_mod_cast hw1
    have hw2' : (0:ℝ) ≤ (cfg.reward_weight_step : ℝ) := by exact_mod_cast hw2
    have hw3' : (0:ℝ) ≤ (cfg.reward_weight_latency_base : ℝ) := by exact_mod_cast hw3
    have hw4' : (0:ℝ) ≤ (cfg.reward_weight_latency_step : ℝ) := by exact_mod_cast hw4
    have hsc' : (0:ℝ) ≤ (cfg.reward_scale : ℝ) := by exact_mod_cast hsc
    apply mul_nonneg hsc'
    have := mul_nonneg hw1' hs1
    have := mul_nonneg hw2' hs2
    have := mul_nonneg hw3' hs3
    have := mul_nonneg hw4' hs4
    linarith
  apply le_min
  · exact le_max_of_le_left hsum
  · exact_mod_cast hrc

/-- Closed witness for `reward_nonneg_amended`: one improving step from a
viable baseline. -/
theorem reward_nonneg_amended_witness :
    0 ≤ compute_reward defaultEnvCfg (some [0, 1/5, 0, 0, 0, 2/5, 0, 0, 0, 0])
      [3/10] [3/10] (some [0, 1/5, 0, 0, 0, 2/5, 0, 0, 0, 0])
      [0, 3/10, 0, 0, 0, 3/10, 0, 0, 0, 0] :=
  reward_nonneg_amended defaultEnvCfg
    [0, 1/5, 0, 0, 0, 2/5, 0, 0, 0, 0] [0, 1/5, 0, 0, 0, 2/5, 0, 0, 0, 0]
    [0, 3/10, 0, 0, 0, 3/10, 0, 0, 0, 0] [3/10] [3/10]
    (by norm_num [defaultEnvCfg]) (by norm_num [defaultEnvCfg])
    (by norm_num [defaultEnvCfg]) (by norm_num [defaultEnvCfg])
    (by norm_num [defaultEnvCfg]) (by norm_num [defaultEnvCfg])
    (by norm_num [defaultEnvCfg])
    (by norm_num [extract_throughput, List.getD])
    (by norm_num [extract_latency, List.getD])
    (by norm_num [extract_throughput, List.getD])
    (by norm_num [extract_latency, List.getD])
    (fun _ => by norm_num [extract_throughput, qmean, List.getD])
    (fun _ => by norm_num [extract_latency, qmean, List.getD])
    (fun h => by simp at h)
    (fun h => by simp at h)

/-! ## Metrics sampler history (`environment/utils.py`, `MQTTSampler`)

The sampler's mutable maps (`_metrics`, `_metrics_ts`, `_topic_prev`,
`_topic_last`, `_topic_count`) are modelled as association lists; the
mutex, the MQTT socket and payload parsing are I/O (a message whose
payload fails `_parse_numeric_payload` leaves the state unchanged and is
not modelled; `onMessage` receives the already-parsed numeric value). -/

def alookup {α : Type} (k : String) : List (String × α) → Option α
  | [] => none
  | (k', v) :: rest => if k' = k then some v else alookup k rest

def aset {α : Type} (k : String) (v : α) : List (String × α) → List (String × α)
  | [] => [(k, v)]
  | (k', v') :: rest => if k' = k then (k, v) :: rest else (k', v') :: aset k v rest

def adel {α : Type} (k : String) : List (String × α) → List (String × α)
  | [] => []
  | (k', v') :: rest => if k' = k then rest else (k', v') :: adel k rest

structure SamplerState where
  metrics : List (String × ℚ)
  metricsTs : List (String × ℚ)
  topicPrev : List (String × (ℚ × ℚ))
  topicLast : List (String × (ℚ × ℚ))
  topicCount : List (String × ℕ)
deriving Repr, DecidableEq

def emptySampler : SamplerState := ⟨[], [], [], [], []⟩

/-- Model of `MQTTSampler._on_message` (utils.py lines 90-118) after successful
payload parsing: update last value/timestamp, maintain the 2-entry
history, and on a strictly decreasing `$SYS/broker/uptime` (tolerance
`1e-6`, modelled exactly) clear that topic's own history and reset its
count to 1. -/
def onMessage (st : SamplerState) (topic : String) (value : ℚ) (now : ℚ) : SamplerState :=
  let st1 := { st with metrics := aset topic value st.metrics,
                       metricsTs := aset topic now st.metricsTs }
  match alookup topic st1.topicLast with
  | some lastPair =>
    if topic = "$SYS/broker/uptime" ∧ value + 1/1000000 < lastPair.1 then
      { st1 with topicPrev := adel topic st1.topicPrev,
                 topicLast := aset topic (value, now) st1.topicLast,
                 topicCount := aset topic 1 st1.topicCount }
    else
      { st1 with topicPrev := aset topic lastPair st1.topicPrev,
                 topicLast := aset topic (value, now) st1.topicLast,
                 topicCount :=
                   aset topic ((alookup topic st1.topicCount).getD 0 + 1) st1.topicCount }
  | none =>
      { st1 with topicLast := aset topic (value, now) st1.topicLast,
                 topicCount := aset topic 1 st1.topicCount }

/-- Model of `MQTTSampler._compute_rate_from_history` (utils.py lines 120-140). -/
def computeRateFromHistory (st : SamplerState) (topic : String)
    (min_interval_sec : ℚ) (min_samples : ℕ) : Option ℚ :=
  match alookup topic st.topicPrev, alookup topic st.topicLast with
  | some prev, some last =>
    if (alookup topic st.topicCount).getD 0 < max 2 min_samples then none
    else if last.2 ≤ prev.2 then none
    else if last.2 - prev.2 < min_interval_sec then none
    else if last.1 - prev.1 < 0 then none
    else some ((last.1 - prev.1) / (last.2 - prev.2))
  | _, _ => none

/-! ## Environment state machine (`environment/broker.py`)

`EnvState` is the per-episode mutable state owned by the environment
(spec §3, EpisodeState).  The MQTT sampler handle, workload manager and
all sleeps/subprocess calls are I/O; their outcomes enter the model as
explicit `Except` results (`applyRes` for `apply_knobs`, `sampleRes` for
`_sample_state`).  Python exception semantics are preserved: state
mutated before a raise stays mutated, and an exception not caught by a
`try/except` escapes `step` as `StepOutcome.raised`. -/

structure EnvState where
  step_count : ℕ
  last_state : Option Obs
  initial_state : Option Obs
  last_applied_knobs : Option KnobDict
  throughput_history : List ℚ
  latency_history : List ℚ
  consecutive_failures : ℕ
  restart_count : ℕ
deriving Repr, DecidableEq

/-- Field values set in `MosquittoBrokerEnv.__init__` (broker.py 75-91). -/
def initialEnvState : EnvState :=
  { step_count := 0, last_state := none, initial_state := none,
    last_applied_knobs := none, throughput_history := [], latency_history := [],
    consecutive_failures := 0, restart_count := 0 }

/-- Model of `self._history_window = 5` (broker.py line 84). -/
def historyWindow : ℕ := 5

structure StepInfo where
  error_reason : Option String
  error : Option String
  restart_count : ℕ
  consecutive_failures : ℕ
deriving Repr, DecidableEq

structure Transition where
  obs : Obs
  reward : ℝ
  terminated : Bool
  truncated : Bool
  info : StepInfo

inductive StepOutcome where
  | raised (msg : String)
  | transition (tr : Transition)

/-- Model of `MosquittoBrokerEnv._make_failure_transition` (broker.py 520-554):
increment the consecutive-failure counter, echo the last successful
observation (zeros when none), penalty reward, `terminated` from the step
counter, `truncated` when the counter reaches the threshold. -/
def make_failure_transition (cfg : EnvCfg) (st : EnvState) (reason error : String) :
    EnvState × Transition :=
  let st' := { st with consecutive_failures := st.consecutive_failures + 1 }
  let fallback := st'.last_state.getD (List.replicate cfg.state_dim 0)
  ( st',
    { obs := fallback,
      reward := (cfg.failed_step_penalty : ℝ),
      terminated := decide (cfg.max_steps ≤ st'.step_count),
      truncated := decide (cfg.max_consecutive_failures ≤ st'.consecutive_failures),
      info := { error_reason := some reason, error := some error,
                restart_count := st'.restart_count,
                consecutive_failures := st'.consecutive_failures } } )

/-- Model of `np.clip(action, self.action_space.low, self.action_space.high)`
(broker.py line 275): the bounds are vectors of shape `(11,)`, so a
wrong-length 1-D action either broadcasts (length 1) or raises a
`ValueError` — *before* any `try/except` in `step`. -/
def npClip01Broadcast (action : List ℚ) (dim : ℕ) : Except String (List ℚ) :=
  if action.length = dim then Except.ok (action.map (fun x => min (max x 0) 1))
  else if action.length = 1 then
    Except.ok (List.replicate dim (min (max (action.headD 0) 0) 1))
  else Except.error "operands could not be broadcast together"

/-- The tail of `step` after knob handling: sampling, history update,
sanitize, reward, transition assembly (broker.py 417-518).  The model's
`_compute_reward` is total, so the `reward_compute_failed` branch of the
source (broker.py 459-469) is unreachable here. -/
noncomputable def stepSample (cfg : EnvCfg) (st : EnvState)
    (sampleRes : Except String Obs) : EnvState × StepOutcome :=
  match sampleRes with
  | Except.error msg =>
    ((make_failure_transition cfg st "sample_state_failed" msg).1,
     StepOutcome.transition (make_failure_transition cfg st "sample_state_failed" msg).2)
  | Except.ok sampled =>
    let st1 := { st with consecutive_failures := 0 }
    let throughput := sampled.getD 1 0
    let latency := sampled.getD 5 0
    let tpHist0 := st1.throughput_history ++ [throughput]
    let tpHist := if historyWindow < tpHist0.length then tpHist0.tail else tpHist0
    let latHist0 := st1.latency_history ++ [latency]
    let latHist := if historyWindow < latHist0.length then latHist0.tail else latHist0
    -- NaN/Inf have no ℚ representative; the clip to ±1e6 remains:
    let next_state := sampled.map (fun x => min (max x (-1000000)) 1000000)
    let reward := compute_reward cfg st1.initial_state tpHist latHist st1.last_state next_state
    let reward := min (max reward (-(1000000:ℝ))) 1000000
    let st2 := { st1 with throughput_history := tpHist, latency_history := latHist,
                          last_state := some next_state }
    ( st2,
      StepOutcome.transition
        { obs := next_state, reward := reward,
          terminated := decide (cfg.max_steps ≤ st2.step_count),
          truncated := false,
          info := { error_reason := none, error := none,
                    restart_count := st2.restart_count,
                    consecutive_failures := st2.consecutive_failures } } )

/-- Model of `MosquittoBrokerEnv.step` (broker.py 258-518). -/
noncomputable def stepModel (cfg : EnvCfg) (st : EnvState) (action : List ℚ)
    (applyRes : Except String Unit) (sampleRes : Except String Obs) :
    EnvState × StepOutcome :=
  match npClip01Broadcast action cfg.action_dim with
  | Except.error msg => (st, StepOutcome.raised msg)
  | Except.ok clipped =>
    let st1 := { st with step_count := st.step_count + 1 }
    match BrokerKnobSpace.decode_action clipped with
    | Except.error msg =>
      ((make_failure_transition cfg st1 "decode_action_failed" msg).1,
       StepOutcome.transition (make_failure_transition cfg st1 "decode_action_failed" msg).2)
    | Except.ok knobs =>
      if st1.last_applied_knobs = some knobs then
        stepSample cfg st1 sampleRes
      else
        match applyRes with
        | Except.error msg =>
          ((make_failure_transition cfg st1 "apply_knobs_failed" msg).1,
           StepOutcome.transition (make_failure_transition cfg st1 "apply_knobs_failed" msg).2)
        | Except.ok _ =>
          stepSample cfg
            { st1 with last_applied_knobs := some knobs,
                       restart_count := st1.restart_count + 1 }
            sampleRes

/-- Baseline viability check (broker.py 214-219). -/
def viableBaseline (cfg : EnvCfg) (c : Obs) : Prop :=
  cfg.baseline_min_clients_norm ≤ c.getD 0 0 ∧ cfg.baseline_min_throughput ≤ c.getD 1 0

instance (cfg : EnvCfg) (c : Obs) : Decidable (viableBaseline cfg c) := by
  unfold viableBaseline; infer_instance

/-- Candidate sanitization in `reset` (broker.py 206-211): NaN/Inf have
no ℚ representative, the clip to ±1e6 remains. -/
def sanitizeObs (c : Obs) : Obs := c.map (fun x => min (max x (-1000000)) 1000000)

/-- The baseline sampling loop of `reset` (broker.py 199-233): up to
`max(1, baseline_max_attempts)` candidates; first viable one wins
(`baseline_ok = true`), otherwise the last candidate is kept
(`baseline_ok = false`); the zeros fallback is only for the impossible
zero-iteration case. -/
def baselineLoop (cfg : EnvCfg) (samples : ℕ → Obs) : ℕ → ℕ → Obs × Bool
  | _, 0 => (List.replicate cfg.state_dim 0, false)
  | i, 1 =>
    let c := sanitizeObs (samples i)
    (c, decide (viableBaseline cfg c))
  | i, r+2 =>
    let c := sanitizeObs (samples i)
    if viableBaseline cfg c then (c, true) else baselineLoop cfg samples (i+1) (r+1)

/-- Model of `MosquittoBrokerEnv.reset` (broker.py 94-256).  The sampler
recreation, broker-readiness wait and workload restart are I/O; the
knob application outcome enters as `applyRes`.  An exception from
`apply_knobs` propagates out of `reset` (there is no failure-transition
path in `reset`); it occurs before any episode-state mutation.  The
returned pair carries the baseline observation and `info.restart_count`. -/
def resetCont (cfg : EnvCfg) (st1 : EnvState) (samples : ℕ → Obs) :
    EnvState × Except String (Obs × ℕ) :=
  let st2 := { st1 with step_count := 0, throughput_history := [],
                        latency_history := [], consecutive_failures := 0 }
  let r := baselineLoop cfg samples 0 (max 1 cfg.baseline_max_attempts)
  let st3 :=
    if cfg.baseline_per_episode ∨ st2.initial_state = none then
      (if r.2 ∨ st2.initial_state = none then { st2 with initial_state := some r.1 }
       else st2)
    else st2
  let st4 := { st3 with last_state := some r.1 }
  (st4, Except.ok (r.1, st4.restart_count))

def resetModel (cfg : EnvCfg) (st : EnvState) (applyRes : Except String Unit)
    (samples : ℕ → Obs) : EnvState × Except String (Obs × ℕ) :=
  if cfg.apply_default_on_reset ∧
      st.last_applied_knobs ≠ some BrokerKnobSpace.get_default_knobs then
    match applyRes with
    | Except.error msg => (st, Except.error msg)
    | Except.ok _ =>
      resetCont cfg { st with last_applied_knobs := some BrokerKnobSpace.get_default_knobs }
        samples
  else resetCont cfg st samples

/-- One agent-visible call to the environment, with its oracle inputs. -/
inductive EnvCall where
  | resetCall (applyRes : Except String Unit) (samples : ℕ → Obs)
  | stepCall (action : List ℚ) (applyRes : Except String Unit)
      (sampleRes : Except String Obs)

noncomputable def runCall (cfg : EnvCfg) (st : EnvState) : EnvCall → EnvState
  | EnvCall.resetCall a s => (resetModel cfg st a s).1
  | EnvCall.stepCall act a smp => (stepModel cfg st act a smp).1

noncomputable def runTrace (cfg : EnvCfg) (st : EnvState) : List EnvCall → EnvState
  | [] => st
  | c :: rest => runTrace cfg (runCall cfg st c) rest

/-! ### C5: derived rate across a broker restart -/

/-- Claim C5, code evaluated at the failing input: Message trace: uptime
100 and received-counter 1000 at t=0; uptime 5 (a restart: the code
clears the *uptime* topic's history, count back to 1) and
received-counter 1500 at t=6.  The two received samples are 6 s ≥ 5 s
apart and the delta 500 ≥ 0, so `_compute_rate_from_history` emits
500/6 = 250/3 msg/s — a rate spanning the restart, because `_on_message`
(utils.py 104-108) clears only `$SYS/broker/uptime`'s own history, never
the `$SYS/broker/messages/received` history the rate is computed from. -/
theorem sampler_rate_spans_restart :
    computeRateFromHistory
        (onMessage (onMessage (onMessage (onMessage emptySampler
          "$SYS/broker/uptime" 100 0)
          "$SYS/broker/messages/received" 1000 0)
          "$SYS/broker/uptime" 5 6)
          "$SYS/broker/messages/received" 1500 6)
        "$SYS/broker/messages/received" 5 2 = some (250/3) ∧
    alookup "$SYS/broker/uptime"
        (onMessage (onMessage (onMessage (onMessage emptySampler
          "$SYS/broker/uptime" 100 0)
          "$SYS/broker/messages/received" 1000 0)
          "$SYS/broker/uptime" 5 6)
          "$SYS/broker/messages/received" 1500 6).topicPrev = none ∧
    alookup "$SYS/broker/uptime"
        (onMessage (onMessage (onMessage (onMessage emptySampler
          "$SYS/broker/uptime" 100 0)
          "$SYS/broker/messages/received" 1000 0)
          "$SYS/broker/uptime" 5 6)
          "$SYS/broker/messages/received" 1500 6).topicCount = some 1 := by
  have h1 : onMessage emptySampler "$SYS/broker/uptime" 100 0 =
      ⟨[("$SYS/broker/uptime", 100)], [("$SYS/broker/uptime", 0)], [],
       [("$SYS/broker/uptime", (100, 0))], [("$SYS/broker/uptime", 1)]⟩ := by
    simp +decide [onMessage, emptySampler, alookup, aset, adel]
  have h2 : onMessage (onMessage emptySampler "$SYS/broker/uptime" 100 0)
      "$SYS/broker/messages/received" 1000 0 =
      ⟨[("$SYS/broker/uptime", 100), ("$SYS/broker/messages/received", 1000)],
       [("$SYS/broker/uptime", 0), ("$SYS/broker/messages/received", 0)], [],
       [("$SYS/broker/uptime", (100, 0)), ("$SYS/broker/messages/received", (1000, 0))],
       [("$SYS/broker/uptime", 1), ("$SYS/broker/messages/received", 1)]⟩ := by
    rw [h1]
    simp +decide [onMessage, alookup, aset, adel]
  have h3 : onMessage (onMessage (onMessage emptySampler "$SYS/broker/uptime" 100 0)
      "$SYS/broker/messages/received" 1000 0) "$SYS/broker/uptime" 5 6 =
      ⟨[("$SYS/broker/uptime", 5), ("$SYS/broker/messages/received", 1000)],
       [("$SYS/broker/uptime", 6), ("$SYS/broker/messages/received", 0)], [],
       [("$SYS/broker/uptime", (5, 6)), ("$SYS/broker/messages/received", (1000, 0))],
       [("$SYS/broker/uptime", 1), ("$SYS/broker/messages/received", 1)]⟩ := by
    rw [h2]
    simp +decide [onMessage, alookup, aset, adel]
    norm_num
  have h4 : onMessage (onMessage (onMessage (onMessage emptySampler
      "$SYS/broker/uptime" 100 0) "$SYS/broker/messages/received" 1000 0)
      "$SYS/broker/uptime" 5 6) "$SYS/broker/messages/received" 1500 6 =
      ⟨[("$SYS/broker/uptime", 5), ("$SYS/broker/messages/received", 1500)],
       [("$SYS/broker/uptime", 6), ("$SYS/broker/messages/received", 6)],
       [("$SYS/broker/messages/received", (1000, 0))],
       [("$SYS/broker/uptime", (5, 6)), ("$SYS/broker/messages/received", (1500, 6))],
       [("$SYS/broker/uptime", 1), ("$SYS/broker/messages/received", 2)]⟩ := by
    rw [h3]
    simp +decide [onMessage, alookup, aset, adel]
  rw [h4]
  refine ⟨?_, ?_, ?_⟩ <;>
    · simp +decide [computeRateFromHistory, alookup]
      try norm_num

/-! ### C2: wrong-length action raises out of `step` -/

/-- Claim C2, code evaluated at the failing input: A length-5 action makes
`np.clip(action, low, high)` (broker.py line 275) raise a broadcast
`ValueError` *before* the `try/except` around `decode_action`, so `step`
raises instead of returning the ShapeMismatch failure transition the
spec promises.  The environment state is untouched. -/
theorem step_wrong_length_action_raises :
    stepModel defaultEnvCfg initialEnvState [1/2, 1/2, 1/2, 1/2, 1/2]
        (Except.ok ()) (Except.ok (List.replicate 10 0)) =
      (initialEnvState, StepOutcome.raised "operands could not be broadcast together") := by
  unfold stepModel npClip01Broadcast
  norm_num [defaultEnvCfg]

/-! ### C6: failure-transition construction -/

/-- Claim C6: Every failure transition returns the last successful
observation (zeros when none), reward `failed_step_penalty`, and
`truncated` exactly when the post-increment consecutive-failure counter
has reached `max_consecutive_failures`; the defaults are −3 and 3
(broker.py `_make_failure_transition`, lines 520-554; config.py
145-146). -/
theorem failure_transition_spec (cfg : EnvCfg) (st : EnvState) (reason error : String) :
    (make_failure_transition cfg st reason error).2.obs =
      st.last_state.getD (List.replicate cfg.state_dim 0) ∧
    (make_failure_transition cfg st reason error).2.reward = (cfg.failed_step_penalty : ℝ) ∧
    (make_failure_transition cfg st reason error).2.truncated =
      decide (cfg.max_consecutive_failures ≤ st.consecutive_failures + 1) ∧
    (make_failure_transition cfg st reason error).2.info.error_reason = some reason ∧
    (make_failure_transition cfg st reason error).2.info.consecutive_failures =
      st.consecutive_failures + 1 ∧
    defaultEnvCfg.failed_step_penalty = -3 ∧
    defaultEnvCfg.max_consecutive_failures = 3 := by
  refine ⟨rfl, rfl, rfl, rfl, rfl, rfl, rfl⟩

/-! ### C9: failure transitions leave episode state intact -/

/-- Claim C9: A `step` that returns a failure transition leaves the stored
last observation, both sliding histories and the episode baseline
unchanged; it increments exactly the step counter and the
consecutive-failure counter — plus the restart counter and last-applied
knobs when the knob application succeeded before the failure
(broker.py 274-304, 421-428, 520-554).  (The model's reward computation
is total, so `reward_compute_failed` — the one source path that would
first mutate the histories — cannot occur.) -/
theorem step_failure_frame (cfg : EnvCfg) (st : EnvState) (action : List ℚ)
    (applyRes : Except String Unit) (sampleRes : Except String Obs)
    (st' : EnvState) (tr : Transition)
    (heq : stepModel cfg st action applyRes sampleRes = (st', StepOutcome.transition tr))
    (herr : tr.info.error_reason ≠ none) :
    st'.last_state = st.last_state ∧
    st'.throughput_history = st.throughput_history ∧
    st'.latency_history = st.latency_history ∧
    st'.initial_state = st.initial_state ∧
    st'.step_count = st.step_count + 1 ∧
    st'.consecutive_failures = st.consecutive_failures + 1 ∧
    ((st'.restart_count = st.restart_count ∧
        st'.last_applied_knobs = st.last_applied_knobs) ∨
     (st'.restart_count = st.restart_count + 1 ∧
        ∃ kd, st'.last_applied_knobs = some kd ∧ st.last_applied_knobs ≠ some kd)) := by
  rcases hclip : npClip01Broadcast action cfg.action_dim with msg | clipped
  · unfold stepModel at heq
    simp only [hclip] at heq
    simp at heq
  · rcases hdec : BrokerKnobSpace.decode_action clipped with msg | knobs
    · -- decode failure (dead branch in the model, still harmless)
      unfold stepModel at heq
      simp only [hclip, hdec] at heq
      simp only [Prod.mk.injEq, StepOutcome.transition.injEq] at heq
      obtain ⟨hst, htr⟩ := heq
      subst hst
      simp [make_failure_transition]
    · by_cases hsame : st.last_applied_knobs = some knobs
      · -- unchanged knobs: no apply, straight to sampling
        rcases sampleRes with smsg | sampled
        · unfold stepModel stepSample at heq
          simp only [hclip, hdec] at heq
          rw [if_pos hsame] at heq
          simp only [Prod.mk.injEq, StepOutcome.transition.injEq] at heq
          obtain ⟨hst, htr⟩ := heq
          subst hst
          simp [make_failure_transition]
        · -- successful sample: error_reason is none, contradiction
          exfalso
          unfold stepModel stepSample at heq
          simp only [hclip, hdec] at heq
          rw [if_pos hsame] at heq
          simp only [Prod.mk.injEq, StepOutcome.transition.injEq] at heq
          obtain ⟨hst, htr⟩ := heq
          apply herr
          rw [← htr]
      · -- changed knobs: apply_knobs runs
        rcases applyRes with amsg | au
        · -- apply failed
          unfold stepModel at heq
          simp only [hclip, hdec] at heq
          rw [if_neg hsame] at heq
          simp only [Prod.mk.injEq, StepOutcome.transition.injEq] at heq
          obtain ⟨hst, htr⟩ := heq
          subst hst
          simp [make_failure_transition]
        · rcases sampleRes with smsg | sampled
          · -- apply succeeded, sampling failed
            unfold stepModel stepSample at heq
            simp only [hclip, hdec] at heq
            rw [if_neg hsame] at heq
            simp only [Prod.mk.injEq, StepOutcome.transition.injEq] at heq
            obtain ⟨hst, htr⟩ := heq
            subst hst
            exact ⟨rfl, rfl, rfl, rfl, rfl, rfl, Or.inr ⟨rfl, knobs, rfl, hsame⟩⟩
          · -- successful sample: error_reason is none, contradiction
            exfalso
            unfold stepModel stepSample at heq
            simp only [hclip, hdec] at heq
            rw [if_neg hsame] at heq
            simp only [Prod.mk.injEq, StepOutcome.transition.injEq] at heq
            obtain ⟨hst, htr⟩ := heq
            apply herr
            rw [← htr]

/-- Closed witness for `step_failure_frame`: the encoded default action
with a failing `apply_knobs` on a fresh environment. -/
theorem step_failure_frame_witness :
    (make_failure_transition defaultEnvCfg
        { initialEnvState with step_count := initialEnvState.step_count + 1 }
        "apply_knobs_failed" "apply boom").1.last_state = initialEnvState.last_state ∧
    (make_failure_transition defaultEnvCfg
        { initialEnvState with step_count := initialEnvState.step_count + 1 }
        "apply_knobs_failed" "apply boom").1.throughput_history =
      initialEnvState.throughput_history ∧
    (make_failure_transition defaultEnvCfg
        { initialEnvState with step_count := initialEnvState.step_count + 1 }
        "apply_knobs_failed" "apply boom").1.latency_history =
      initialEnvState.latency_history ∧
    (make_failure_transition defaultEnvCfg
        { initialEnvState with step_count := initialEnvState.step_count + 1 }
        "apply_knobs_failed" "apply boom").1.initial_state = initialEnvState.initial_state ∧
    (make_failure_transition defaultEnvCfg
        { initialEnvState with step_count := initialEnvState.step_count + 1 }
        "apply_knobs_failed" "apply boom").1.step_count = initialEnvState.step_count + 1 ∧
    (make_failure_transition defaultEnvCfg
        { initialEnvState with step_count := initialEnvState.step_count + 1 }
        "apply_knobs_failed" "apply boom").1.consecutive_failures =
      initialEnvState.consecutive_failures + 1 ∧
    (((make_failure_transition defaultEnvCfg
          { initialEnvState with step_count := initialEnvState.step_count + 1 }
          "apply_knobs_failed" "apply boom").1.restart_count =
        initialEnvState.restart_count ∧
      (make_failure_transition defaultEnvCfg
          { initialEnvState with step_count := initialEnvState.step_count + 1 }
          "apply_knobs_failed" "apply boom").1.last_applied_knobs =
        initialEnvState.last_applied_knobs) ∨
     ((make_failure_transition defaultEnvCfg
          { initialEnvState with step_count := initialEnvState.step_count + 1 }
          "apply_knobs_failed" "apply boom").1.restart_count =
        initialEnvState.restart_count + 1 ∧
      ∃ kd, (make_failure_transition defaultEnvCfg
          { initialEnvState with step_count := initialEnvState.step_count + 1 }
          "apply_knobs_failed" "apply boom").1.last_applied_knobs = some kd ∧
        initialEnvState.last_applied_knobs ≠ some kd)) := by
  have hclipL : npClip01Broadcast
      [5368709/536870912, 5368709/1073741824, 13421773/268435456, 5368709/1073741824, 0,
       5368709/1073741824, 0, 1/2, 0, 5368709/1073741824, 5368709/1073741824]
      defaultEnvCfg.action_dim = Except.ok
      [5368709/536870912, 5368709/1073741824, 13421773/268435456, 5368709/1073741824, 0,
       5368709/1073741824, 0, 1/2, 0, 5368709/1073741824, 5368709/1073741824] := by
    norm_num [npClip01Broadcast, defaultEnvCfg]
  have heval : stepModel defaultEnvCfg initialEnvState
      [5368709/536870912, 5368709/1073741824, 13421773/268435456, 5368709/1073741824, 0,
       5368709/1073741824, 0, 1/2, 0, 5368709/1073741824, 5368709/1073741824]
      (Except.error "apply boom") (Except.ok (List.replicate 10 0)) =
      ((make_failure_transition defaultEnvCfg
          { initialEnvState with step_count := initialEnvState.step_count + 1 }
          "apply_knobs_failed" "apply boom").1,
       StepOutcome.transition (make_failure_transition defaultEnvCfg
          { initialEnvState with step_count := initialEnvState.step_count + 1 }
          "apply_knobs_failed" "apply boom").2) := by
    unfold stepModel
    simp only [hclipL, BrokerKnobSpace.decode_encoded_default_eval]
    rw [if_neg (by simp [initialEnvState])]
  exact step_failure_frame defaultEnvCfg initialEnvState
    [5368709/536870912, 5368709/1073741824, 13421773/268435456, 5368709/1073741824, 0,
     5368709/1073741824, 0, 1/2, 0, 5368709/1073741824, 5368709/1073741824]
    (Except.error "apply boom") (Except.ok (List.replicate 10 0)) _ _ heval
    (by simp [make_failure_transition])

/-! ### C10: the restart counter -/

lemma resetCont_restart_count (cfg : EnvCfg) (st1 : EnvState) (samples : ℕ → Obs) :
    (resetCont cfg st1 samples).1.restart_count = st1.restart_count := by
  unfold resetCont
  simp only []
  split
  · split <;> rfl
  · rfl

lemma resetModel_restart_count (cfg : EnvCfg) (st : EnvState)
    (applyRes : Except String Unit) (samples : ℕ → Obs) :
    (resetModel cfg st applyRes samples).1.restart_count = st.restart_count := by
  unfold resetModel
  split
  · rcases applyRes with msg | u
    · rfl
    · exact resetCont_restart_count cfg _ samples
  · exact resetCont_restart_count cfg st samples

lemma stepSample_restart_count (cfg : EnvCfg) (st : EnvState)
    (sampleRes : Except String Obs) :
    (stepSample cfg st sampleRes).1.restart_count = st.restart_count := by
  unfold stepSample
  rcases sampleRes with msg | sampled <;> rfl

lemma stepModel_restart_count (cfg : EnvCfg) (st : EnvState) (action : List ℚ)
    (applyRes : Except String Unit) (sampleRes : Except String Obs) :
    ((stepModel cfg st action applyRes sampleRes).1.restart_count = st.restart_count + 1 ↔
      ∃ clipped knobs, npClip01Broadcast action cfg.action_dim = Except.ok clipped ∧
        BrokerKnobSpace.decode_action clipped = Except.ok knobs ∧
        st.last_applied_knobs ≠ some knobs ∧ applyRes = Except.ok ()) ∧
    ((stepModel cfg st action applyRes sampleRes).1.restart_count = st.restart_count ∨
      (stepModel cfg st action applyRes sampleRes).1.restart_count = st.restart_count + 1) := by
  rcases hclip : npClip01Broadcast action cfg.action_dim with msg | clipped
  · have hval : (stepModel cfg st action applyRes sampleRes).1.restart_count =
        st.restart_count := by
      unfold stepModel
      simp only [hclip]
    rw [hval]
    refine ⟨⟨fun h => absurd h (by omega), ?_⟩, Or.inl rfl⟩
    rintro ⟨c, k, hc, -⟩
    exact absurd hc (by simp)
  · rcases hdec : BrokerKnobSpace.decode_action clipped with msg | knobs
    · have hval : (stepModel cfg st action applyRes sampleRes).1.restart_count =
          st.restart_count := by
        unfold stepModel
        simp only [hclip, hdec]
        simp [make_failure_transition]
      rw [hval]
      refine ⟨⟨fun h => absurd h (by omega), ?_⟩, Or.inl rfl⟩
      rintro ⟨c, k, hc, hd, -⟩
      injection hc with hc'
      subst hc'
      rw [hdec] at hd
      exact absurd hd (by simp)
    · by_cases hsame : st.last_applied_knobs = some knobs
      · have hval : (stepModel cfg st action applyRes sampleRes).1.restart_count =
            st.restart_count := by
          unfold stepModel
          simp only [hclip, hdec]
          rw [if_pos hsame, stepSample_restart_count]
        rw [hval]
        refine ⟨⟨fun h => absurd h (by omega), ?_⟩, Or.inl rfl⟩
        rintro ⟨c, k, hc, hd, hne, -⟩
        injection hc with hc'
        subst hc'
        rw [hdec] at hd
        injection hd with hd'
        subst hd'
        exact absurd hsame hne
      · rcases applyRes with amsg | au
        · have hval : (stepModel cfg st action (Except.error amsg) sampleRes).1.restart_count =
              st.restart_count := by
            unfold stepModel
            simp only [hclip, hdec]
            rw [if_neg hsame]
            simp [make_failure_transition]
          rw [hval]
          refine ⟨⟨fun h => absurd h (by omega), ?_⟩, Or.inl rfl⟩
          rintro ⟨c, k, -, -, -, hae⟩
          exact absurd hae (by simp)
        · have hval : (stepModel cfg st action (Except.ok au) sampleRes).1.restart_count =
              st.restart_count + 1 := by
            unfold stepModel
            simp only [hclip, hdec]
            rw [if_neg hsame, stepSample_restart_count]
          rw [hval]
          exact ⟨⟨fun _ => ⟨clipped, knobs, rfl, hdec, hsame, rfl⟩, fun _ => rfl⟩,
            Or.inr rfl⟩

/-- Claim C10: The persistent restart counter is incremented exactly by
`step` calls that successfully apply a changed `KnobDict`
(broker.py 289-304); `reset` never increments it, even when it restarts
the broker to apply the defaults (broker.py 131-164 never touches
`_restart_count`); hence across any interleaving of `step` and `reset`
the counter is non-decreasing. -/
theorem restart_count_behavior :
    (∀ (cfg : EnvCfg) (st : EnvState) (a : Except String Unit) (s : ℕ → Obs),
      (resetModel cfg st a s).1.restart_count = st.restart_count) ∧
    (∀ (cfg : EnvCfg) (st : EnvState) (act : List ℚ) (a : Except String Unit)
        (smp : Except String Obs),
      ((stepModel cfg st act a smp).1.restart_count = st.restart_count + 1 ↔
        ∃ clipped knobs, npClip01Broadcast act cfg.action_dim = Except.ok clipped ∧
          BrokerKnobSpace.decode_action clipped = Except.ok knobs ∧
          st.last_applied_knobs ≠ some knobs ∧ a = Except.ok ())) ∧
    (∀ (cfg : EnvCfg) (st : EnvState) (trace : List EnvCall),
      st.restart_count ≤ (runTrace cfg st trace).restart_count) := by
  refine ⟨resetModel_restart_count, fun cfg st act a smp =>
    (stepModel_restart_count cfg st act a smp).1, ?_⟩
  intro cfg st trace
  induction trace generalizing st with
  | nil => exact le_refl _
  | cons c rest ih =>
    refine le_trans ?_ (ih (runCall cfg st c))
    rcases c with ⟨a, s⟩ | ⟨act, a, smp⟩
    · simp only [runCall]
      rw [resetModel_restart_count]
    · simp only [runCall]
      rcases (stepModel_restart_count cfg st act a smp).2 with h | h <;> omega

/-- Closed witness for `apply_knobs_line_characterization` at a concrete
knob dictionary (`max_packet_size := 2048`, `memory_limit := 0`). -/
theorem apply_knobs_line_characterization_witness :
    ConfigLine.entry "max_packet_size" (ConfValue.int (max 20 2048)) ∈
      apply_knobs_lines
        { BrokerKnobSpace.get_default_knobs with max_packet_size := 2048 } ∧
    (∀ v, ConfigLine.entry "memory_limit" v ∉
      apply_knobs_lines
        { BrokerKnobSpace.get_default_knobs with max_packet_size := 2048 }) :=
  ⟨(apply_knobs_line_characterization
      { BrokerKnobSpace.get_default_knobs with max_packet_size := 2048 }).1.2
      (by norm_num),
   (apply_knobs_line_characterization
      { BrokerKnobSpace.get_default_knobs with max_packet_size := 2048 }).2.2.2.1.1
      (by norm_num [BrokerKnobSpace.get_default_knobs])⟩

/-- Closed witness for `restart_count_behavior`. -/
theorem restart_count_behavior_witness :
    (resetModel defaultEnvCfg initialEnvState (Except.ok ())
        (fun _ => List.replicate 10 0)).1.restart_count = initialEnvState.restart_count ∧
    initialEnvState.restart_count ≤
      (runTrace defaultEnvCfg initialEnvState []).restart_count :=
  ⟨restart_count_behavior.1 defaultEnvCfg initialEnvState (Except.ok ())
      (fun _ => List.replicate 10 0),
   restart_count_behavior.2.2 defaultEnvCfg initialEnvState []⟩
